import Mathlib

/-!
# afl-gcc: the compiler wrapper of american fuzzy lop 2.52b

A shallow embedding of `src/afl-gcc.c` and the properties of its flag
rewriter `edit_params`.

Modelling conventions.

* A C string is a `String` without a NUL character; a `u8*` that may be
  `NULL` is an `Option String`.
* The process environment is an association list, read by `getenv` and
  written by `setenv` (with overwrite).
* `cc_params` is the heap block of `argc + 128` pointer slots returned by
  `ck_alloc`, zero-filled; a store outside the block is the failure `fault`.
* `FATAL(msg)` ends the process: it is the failure `fatal line msg`, `line`
  being the source line of the call.
* Three fields of the state are bookkeeping for the argument scan and are
  never read by the program: the offset `argv` has been advanced by, the
  indices of `argv` it has pointed at, and the values `argc` was decremented
  from.
* `u32` values are natural numbers reduced modulo `2 ^ 32` where the code
  does arithmetic on them.
-/

namespace AflGcc

/-! ## C strings -/

/-- The test `strncmp(a, b, n) == 0`: the first `n` characters agree, a
string shorter than `n` being compared up to and including its terminator. -/
def strncmp_eq (a b : String) (n : Nat) : Bool :=
  decide (a.data.take n = b.data.take n)

/-- Offset of the last occurrence of `c`, as `strrchr` finds it; `none` is the
`NULL` result. -/
def strrchrAux (c : Char) : List Char → Option Nat
  | [] => none
  | x :: xs =>
    match strrchrAux c xs with
    | some i => some (i + 1)
    | none => if x = c then some 0 else none

/-- The call `strrchr(s, c)`, as an offset into `s`. -/
def strrchr (s : String) (c : Char) : Option Nat :=
  strrchrAux c s.data

/-- Whether `needle` occurs in the character list at some offset. -/
def strstrAux (needle : List Char) : List Char → Bool
  | [] => needle.isPrefixOf []
  | c :: cs => needle.isPrefixOf (c :: cs) || strstrAux needle cs

/-- The test `strstr(hay, needle) != NULL`. -/
def strstr (hay needle : String) : Bool :=
  strstrAux needle.data hay.data

/-- The test `!s[i]` for an offset `i` not past the terminator of `s`: the
character at `i` is the terminating NUL. -/
def nulAt (s : String) (i : Nat) : Bool :=
  decide (s.data.length ≤ i)

/-- The modulus of `u32` arithmetic, `2 ^ 32`. -/
def U32_MOD : Nat := 4294967296

/-- The `u32` decrement `--n`. -/
@[irreducible] def u32_dec (n : Nat) : Nat := (n + (U32_MOD - 1)) % U32_MOD

/-! ## Environment -/

/-- The process environment: name and value pairs, first match wins. -/
abbrev Env := List (String × String)

/-- The call `getenv(name)`; `none` is `NULL`. -/
def getenv : Env → String → Option String
  | [], _ => none
  | (k, v) :: e, n => if k = n then some v else getenv e n

/-- The call `setenv(name, value, 1)`. -/
def setenv : Env → String → String → Env
  | [], n, v => [(n, v)]
  | (k, w) :: e, n, v => if k = n then (k, v) :: e else (k, w) :: setenv e n v

/-! ## Build configuration and program state -/

/-- What is fixed when the wrapper is compiled: the platform symbols tested by
`#if`, and the constants of `config.h`, a header that is not part of the
sources at hand. -/
structure Build where
  /-- Whether `__APPLE__` is defined. -/
  apple : Bool
  /-- Whether `__FreeBSD__` and `__x86_64__` are both defined. -/
  freebsd_x86_64 : Bool
  /-- The `config.h` constant `CLANG_ENV_VAR`. -/
  CLANG_ENV_VAR : String
  /-- The `config.h` constant `AFL_PATH`, the compiled-in directory. -/
  AFL_PATH : String
  deriving DecidableEq, Repr

/-- How the process can stop without `edit_params` returning. -/
inductive Failure where
  /-- The macro `FATAL` on source line `line` was reached with this message. -/
  | fatal (line : Nat) (msg : String)
  /-- The call `exit(status)`. -/
  | exit (status : Nat)
  /-- A load or store outside an object, or through `NULL`. -/
  | fault
  deriving DecidableEq, Repr

/-- The file-scope variables of `afl-gcc.c`, the locals of `edit_params`, the
environment and the warnings printed so far. -/
structure State where
  as_path : Option String
  cc_params : List (Option String)
  cc_par_cnt : Nat
  be_quiet : Bool
  clang_mode : Bool
  fortify_set : Bool
  asan_set : Bool
  m32_set : Bool
  env : Env
  warnings : List String
  /-- How many elements the parameter `argv` of `edit_params` has moved on. -/
  argv_off : Nat
  /-- The indices of `argv` the pointer has been moved onto, in order. -/
  visited : List Nat
  /-- The values of `argc` at each decrement, before it, in order. -/
  counters : List Nat
  deriving DecidableEq, Repr

/-- The state at program start, as the static initialisers leave it. -/
def State.init (env : Env) : State :=
  { as_path := none, cc_params := [], cc_par_cnt := 1, be_quiet := false,
    clang_mode := false, fortify_set := false, asan_set := false,
    m32_set := false, env := env, warnings := [], argv_off := 0, visited := [],
    counters := [] }

deriving instance DecidableEq for Except

/-- The assignment `cc_params[i] = x`. -/
def State.store (s : State) (i : Nat) (x : Option String) : Except Failure State :=
  if i < s.cc_params.length then
    .ok { s with cc_params := s.cc_params.set i x }
  else
    .error .fault

/-- The assignment `cc_params[cc_par_cnt++] = x`. -/
def State.push (s : State) (x : Option String) : Except Failure State :=
  match s.store s.cc_par_cnt x with
  | .error e => .error e
  | .ok t => .ok { t with cc_par_cnt := (t.cc_par_cnt + 1) % U32_MOD }

/-- The macro `WARNF(msg)` under `if (!be_quiet)`. -/
def State.warn (s : State) (msg : String) : State :=
  if s.be_quiet then s else { s with warnings := s.warnings ++ [msg] }

/-- One step of the pointer `argv`: `++argv` or `argv++`. -/
def State.advance (s : State) : State :=
  { s with argv_off := s.argv_off + 1, visited := s.visited ++ [s.argv_off + 1] }

/-- Note that `argc`, now `n`, is about to be decremented. -/
def State.tick (s : State) (n : Nat) : State :=
  { s with counters := s.counters ++ [n] }

/-- A decrement of `argc`, now `n`, with a step of `argv`: the loop head
`--argc` with `*(++argv)`, or `argc--; argv++` after a bare `-B`. -/
def State.fetch (s : State) (n : Nat) : State :=
  (s.tick n).advance

/-- Lines 203-205: `if (!strcmp(cur, "-m32")) m32_set = 1;`, compiled in on
FreeBSD/x86_64 only. -/
def State.note_m32 (s : State) (b : Build) (cur : String) : State :=
  if b.freebsd_x86_64 && decide (cur = "-m32") then { s with m32_set := true } else s

/-- Lines 207-208: a sanitizer flag sets `asan_set`. -/
def State.note_sanitizer (s : State) (cur : String) : State :=
  if cur = "-fsanitize=address" ∨ cur = "-fsanitize=memory" then
    { s with asan_set := true }
  else s

/-- Line 211: `if (strstr(cur, "FORTIFY_SOURCE")) fortify_set = 1;`. -/
def State.note_fortify (s : State) (cur : String) : State :=
  if strstr cur "FORTIFY_SOURCE" then { s with fortify_set := true } else s

/-! ## `find_as` -/

/-- Lines 78-107 of `find_as`: the probe next to `argv[0]`, then the probe of
the compiled-in directory, then the fatal error. The predicate `access_x p`
is the test `!access(p, X_OK)`. -/
def find_as_fallback (b : Build) (access_x : String → Bool) (argv0 : String)
    (s : State) : Except Failure State :=
  let compiled_in : Except Failure State :=
    if access_x (b.AFL_PATH ++ "/as") then
      .ok { s with as_path := some b.AFL_PATH }
    else
      .error (.fatal 107 "Unable to find AFL wrapper binary for 'as'. Please set AFL_PATH")
  match strrchr argv0 '/' with
  | some i =>
    let dir : String := ⟨argv0.data.take i⟩
    if access_x (dir ++ "/afl-as") then .ok { s with as_path := some dir }
    else compiled_in
  | none => compiled_in

/-- The function `find_as(argv0)`. -/
def find_as (b : Build) (access_x : String → Bool) (argv0 : String) (s : State) :
    Except Failure State :=
  match getenv s.env "AFL_PATH" with
  | some afl_path =>
    if access_x (afl_path ++ "/as") then .ok { s with as_path := some afl_path }
    else find_as_fallback b access_x argv0 s
  | none => find_as_fallback b access_x argv0 s

/-! ## `edit_params` -/

/-- Lines 125-126: the text after the last `/` of `argv[0]`, or all of it. -/
def base_name (argv0 : String) : String :=
  match strrchr argv0 '/' with
  | none => argv0
  | some i => ⟨argv0.data.drop (i + 1)⟩

/-- Lines 128-183: choose the compiler binary for slot 0 from the base name
and the environment. -/
def choose_compiler (b : Build) (name : String) (s : State) : Except Failure State :=
  if strncmp_eq name "afl-clang" 9 then
    let s := { s with clang_mode := true, env := setenv s.env b.CLANG_ENV_VAR "1" }
    if name = "afl-clang++" then
      s.store 0 (some ((getenv s.env "AFL_CXX").getD "clang++"))
    else
      s.store 0 (some ((getenv s.env "AFL_CC").getD "clang"))
  else if b.apple then
    let alt :=
      if name = "afl-g++" then getenv s.env "AFL_CXX"
      else if name = "afl-gcj" then getenv s.env "AFL_GCJ"
      else getenv s.env "AFL_CC"
    match s.store 0 alt with
    | .error e => .error e
    | .ok t =>
      if (t.cc_params.getD 0 none).isNone then
        .error (.fatal 163 "AFL_CC or AFL_CXX required on MacOS X")
      else .ok t
  else if name = "afl-g++" then
    s.store 0 (some ((getenv s.env "AFL_CXX").getD "g++"))
  else if name = "afl-gcj" then
    s.store 0 (some ((getenv s.env "AFL_GCJ").getD "gcj"))
  else
    s.store 0 (some ((getenv s.env "AFL_CC").getD "gcc"))

/-- Lines 186-215: the loop `while (--argc)`. The list holds the elements of
`argv` after the one `argv` points at; `argc` is the counter before the
decrement, so that `u32_dec argc` is its value inside the body. Reading
`*(++argv)` with no element left is a fault, also when the extra `argv++` of a
bare `-B` has stepped over the last element. -/
def scan (b : Build) (l : List String) (argc : Nat) (s : State) : Except Failure State :=
  match l with
  | [] =>
    if u32_dec argc = 0 then .ok (s.tick argc) else .error .fault
  | cur :: rest =>
    if u32_dec argc = 0 then .ok (s.tick argc)
    else if strncmp_eq cur "-B" 2 then
      if nulAt cur 2 && decide (u32_dec argc > 1) then
        match rest with
        | [] =>
          if u32_dec (u32_dec (u32_dec argc)) = 0 then
            .ok ((((s.fetch argc).warn "-B is already set, overriding").fetch
              (u32_dec argc)).tick (u32_dec (u32_dec argc)))
          else .error .fault
        | _ :: rest2 =>
          scan b rest2 (u32_dec (u32_dec argc))
            (((s.fetch argc).warn "-B is already set, overriding").fetch (u32_dec argc))
      else scan b rest (u32_dec argc) ((s.fetch argc).warn "-B is already set, overriding")
    else if cur = "-integrated-as" then scan b rest (u32_dec argc) (s.fetch argc)
    else if cur = "-pipe" then scan b rest (u32_dec argc) (s.fetch argc)
    else
      match ((((s.fetch argc).note_m32 b cur).note_sanitizer cur).note_fortify cur).push
        (some cur) with
      | .error e => .error e
      | .ok t => scan b rest (u32_dec argc) t
termination_by structural l

/-- Lines 223-224: the flag for the clang family. -/
def add_clang (s : State) : Except Failure State :=
  if s.clang_mode then s.push (some "-no-integrated-as") else pure s

/-- Lines 226-233: the hardening flags. -/
def add_harden (s : State) : Except Failure State :=
  if (getenv s.env "AFL_HARDEN").isSome then do
    let s ← s.push (some "-fstack-protector-all")
    if !s.fortify_set then s.push (some "-D_FORTIFY_SOURCE=2") else pure s
  else pure s

/-- Lines 237-266: the sanitizer flags and their exclusivity checks. -/
def add_sanitizer (s : State) : Except Failure State :=
  if s.asan_set then
    pure { s with env := setenv s.env "AFL_USE_ASAN" "1" }
  else if (getenv s.env "AFL_USE_ASAN").isSome then
    if (getenv s.env "AFL_USE_MSAN").isSome then
      .error (.fatal 246 "ASAN and MSAN are mutually exclusive")
    else if (getenv s.env "AFL_HARDEN").isSome then
      .error (.fatal 249 "ASAN and AFL_HARDEN are mutually exclusive")
    else do
      let s ← s.push (some "-U_FORTIFY_SOURCE")
      s.push (some "-fsanitize=address")
  else if (getenv s.env "AFL_USE_MSAN").isSome then
    if (getenv s.env "AFL_USE_ASAN").isSome then
      .error (.fatal 257 "ASAN and MSAN are mutually exclusive")
    else if (getenv s.env "AFL_HARDEN").isSome then
      .error (.fatal 260 "MSAN and AFL_HARDEN are mutually exclusive")
    else do
      let s ← s.push (some "-U_FORTIFY_SOURCE")
      s.push (some "-fsanitize=memory")
  else pure s

/-- Lines 268-294: the optimisation flags and the two fuzzing markers. -/
def add_optimize (b : Build) (s : State) : Except Failure State :=
  if (getenv s.env "AFL_DONT_OPTIMIZE").isNone then do
    let s ←
      if b.freebsd_x86_64 then
        if !s.clang_mode || !s.m32_set then s.push (some "-g") else pure s
      else s.push (some "-g")
    let s ← s.push (some "-O3")
    let s ← s.push (some "-funroll-loops")
    let s ← s.push (some "-D__AFL_COMPILER=1")
    s.push (some "-DFUZZING_BUILD_MODE_UNSAFE_FOR_PRODUCTION=1")
  else pure s

/-- Lines 296-306: the `-fno-builtin-*` flags. -/
def add_no_builtin (s : State) : Except Failure State :=
  if (getenv s.env "AFL_NO_BUILTIN").isSome then do
    let s ← s.push (some "-fno-builtin-strcmp")
    let s ← s.push (some "-fno-builtin-strncmp")
    let s ← s.push (some "-fno-builtin-strcasecmp")
    let s ← s.push (some "-fno-builtin-strncasecmp")
    let s ← s.push (some "-fno-builtin-memcmp")
    let s ← s.push (some "-fno-builtin-strstr")
    s.push (some "-fno-builtin-strcasestr")
  else pure s

/-- Lines 220-309: everything `edit_params` appends after the scan, and the
terminating `NULL`. -/
def append_flags (b : Build) (s : State) : Except Failure State := do
  let s ← s.push (some "-B")
  let s ← s.push s.as_path
  let s ← add_clang s
  let s ← add_harden s
  let s ← add_sanitizer s
  let s ← add_optimize b s
  let s ← add_no_builtin s
  s.store s.cc_par_cnt none

/-- Lines 116-123: the locals of `edit_params` are initialised and `cc_params`
is allocated, `argc + 128` slots filled with zeroes. -/
def edit_params_entry (argc : Nat) (s : State) : State :=
  { s with fortify_set := false, asan_set := false, m32_set := false,
           cc_params := List.replicate ((argc + 128) % U32_MOD) none,
           argv_off := 0, visited := [], counters := [] }

/-- The function `edit_params(argc, argv)`, run from state `s`. -/
def edit_params (b : Build) (argc : Nat) (argv : List String) (s : State) :
    Except Failure State :=
  match argv with
  | [] => .error .fault
  | argv0 :: rest => do
    let s ← choose_compiler b (base_name argv0) (edit_params_entry argc s)
    let s ← scan b rest argc s
    append_flags b s

/-- The vector `execvp` reads from `cc_params`: the slots before the first
`NULL`. -/
def argVector : List (Option String) → List String
  | some x :: xs => x :: argVector xs
  | _ => []

/-- The function `main(argc, argv)` up to the call of `execvp`, whose
argument vector is in the state returned. `isatty2` is the result of
`isatty(2)`. -/
def main (b : Build) (access_x : String → Bool) (isatty2 : Bool) (argv : List String)
    (env : Env) : Except Failure State :=
  let s := State.init env
  let s :=
    if isatty2 && (getenv s.env "AFL_QUIET").isNone then s
    else { s with be_quiet := true }
  if argv.length < 2 then .error (.exit 1)
  else
    match argv with
    | [] => .error .fault
    | argv0 :: _ => do
      let s ← find_as b access_x argv0 s
      edit_params b argv.length argv s

/-- The state in which `main` calls `edit_params` once `find_as` has found the
directory `dir`. -/
def State.ready (env : Env) (dir : String) (quiet : Bool) : State :=
  { State.init env with as_path := some dir, be_quiet := quiet }

/-! ## The rewriting stated on lists

The functions of this section say, in the words of the specification, what
the argument vector is made of. They take the environment as `edit_params`
reads it, that is after the `setenv` of the clang branch. -/

/-- Whether the base name selects the clang family: it starts with
`afl-clang`. -/
def clang_family (name : String) : Bool :=
  strncmp_eq name "afl-clang" 9

/-- The environment after the compiler has been chosen. -/
def env_selected (b : Build) (name : String) (env : Env) : Env :=
  if clang_family name then setenv env b.CLANG_ENV_VAR "1" else env

/-- The environment `edit_params` leaves behind: the marker `AFL_USE_ASAN` is
set when a sanitizer flag was recorded. -/
def env_final (env : Env) (asan : Bool) : Env :=
  if asan then setenv env "AFL_USE_ASAN" "1" else env

/-- The chosen compiler binary: an override from the environment or the
default of the family; `none` where an Apple build insists on an override. -/
def compiler_binary (b : Build) (name : String) (env : Env) : Option String :=
  if clang_family name then
    if name = "afl-clang++" then some ((getenv env "AFL_CXX").getD "clang++")
    else some ((getenv env "AFL_CC").getD "clang")
  else if b.apple then
    if name = "afl-g++" then getenv env "AFL_CXX"
    else if name = "afl-gcj" then getenv env "AFL_GCJ"
    else getenv env "AFL_CC"
  else if name = "afl-g++" then some ((getenv env "AFL_CXX").getD "g++")
  else if name = "afl-gcj" then some ((getenv env "AFL_GCJ").getD "gcj")
  else some ((getenv env "AFL_CC").getD "gcc")

/-- The pass-through tokens. With `skip` set the first token is the value of
a bare `-B` before it and is dropped unseen. -/
def kept_from : Bool → List String → List String
  | _, [] => []
  | true, _ :: rest => kept_from false rest
  | false, cur :: rest =>
    if strncmp_eq cur "-B" 2 then kept_from (nulAt cur 2) rest
    else if cur = "-integrated-as" ∨ cur = "-pipe" then kept_from false rest
    else cur :: kept_from false rest

/-- The pass-through tokens of an argument list. -/
def pass_through (args : List String) : List String :=
  kept_from false args

/-- How many search-path flags the scan warns about. -/
def overrides_from : Bool → List String → Nat
  | _, [] => 0
  | true, _ :: rest => overrides_from false rest
  | false, cur :: rest =>
    if strncmp_eq cur "-B" 2 then overrides_from (nulAt cur 2) rest + 1
    else overrides_from false rest

/-- The warnings of a scan: one for each search-path flag, unless quiet. -/
def scan_warnings (quiet : Bool) (args : List String) : List String :=
  if quiet then []
  else List.replicate (overrides_from false args) "-B is already set, overriding"

/-- Whether a token is one of the two sanitizer flags. -/
def is_sanitizer (t : String) : Bool :=
  decide (t = "-fsanitize=address") || decide (t = "-fsanitize=memory")

/-- Whether a token contains the hardening-macro name. -/
def has_fortify (t : String) : Bool :=
  strstr t "FORTIFY_SOURCE"

/-- Whether a sanitizer flag is among the pass-through tokens. -/
def sanitizer_seen (args : List String) : Bool :=
  (pass_through args).any is_sanitizer

/-- Whether a pass-through token contains the hardening-macro name. -/
def fortify_seen (args : List String) : Bool :=
  (pass_through args).any has_fortify

/-- Whether `-m32` is among the pass-through tokens. -/
def m32_seen (args : List String) : Bool :=
  (pass_through args).any (fun t => decide (t = "-m32"))

/-- The flag for the clang family. -/
def clang_flags (clang : Bool) : List String :=
  if clang then ["-no-integrated-as"] else []

/-- The hardening flags. -/
def harden_flags (env : Env) (fortify : Bool) : List String :=
  if (getenv env "AFL_HARDEN").isSome then
    if fortify then ["-fstack-protector-all"]
    else ["-fstack-protector-all", "-D_FORTIFY_SOURCE=2"]
  else []

/-- The policy conflict, if there is one, by priority. -/
def policy_conflict (env : Env) (asan : Bool) : Option Failure :=
  if asan then none
  else if (getenv env "AFL_USE_ASAN").isSome then
    if (getenv env "AFL_USE_MSAN").isSome then
      some (.fatal 246 "ASAN and MSAN are mutually exclusive")
    else if (getenv env "AFL_HARDEN").isSome then
      some (.fatal 249 "ASAN and AFL_HARDEN are mutually exclusive")
    else none
  else if (getenv env "AFL_USE_MSAN").isSome then
    if (getenv env "AFL_HARDEN").isSome then
      some (.fatal 260 "MSAN and AFL_HARDEN are mutually exclusive")
    else none
  else none

/-- The sanitizer flags. -/
def sanitizer_flags (env : Env) (asan : Bool) : List String :=
  if asan then []
  else if (getenv env "AFL_USE_ASAN").isSome then
    ["-U_FORTIFY_SOURCE", "-fsanitize=address"]
  else if (getenv env "AFL_USE_MSAN").isSome then
    ["-U_FORTIFY_SOURCE", "-fsanitize=memory"]
  else []

/-- The optimisation flags and the two markers. -/
def optimize_flags (b : Build) (env : Env) (clang m32 : Bool) : List String :=
  if (getenv env "AFL_DONT_OPTIMIZE").isSome then []
  else
    (if b.freebsd_x86_64 && clang && m32 then [] else ["-g"]) ++
      ["-O3", "-funroll-loops", "-D__AFL_COMPILER=1",
        "-DFUZZING_BUILD_MODE_UNSAFE_FOR_PRODUCTION=1"]

/-- The flags against built-in string functions. -/
def no_builtin_flags (env : Env) : List String :=
  if (getenv env "AFL_NO_BUILTIN").isSome then
    ["-fno-builtin-strcmp", "-fno-builtin-strncmp", "-fno-builtin-strcasecmp",
      "-fno-builtin-strncasecmp", "-fno-builtin-memcmp", "-fno-builtin-strstr",
      "-fno-builtin-strcasestr"]
  else []

/-- The policy flags that follow the search-path pair, in their order. -/
def policy_flags (b : Build) (env : Env) (clang fortify asan m32 : Bool) :
    List String :=
  clang_flags clang ++ (harden_flags env fortify ++ (sanitizer_flags env asan ++
    (optimize_flags b env clang m32 ++ no_builtin_flags env)))

/-- Everything appended after the pass-through tokens. -/
def appended (b : Build) (env : Env) (dir : String) (clang fortify asan m32 : Bool) :
    List String :=
  "-B" :: dir :: policy_flags b env clang fortify asan m32

/-- The vector the rewriting is to produce once the compiler binary `cc` is
chosen, `env` being the environment after that choice. -/
def rewritten_vector (b : Build) (name : String) (args : List String) (env : Env)
    (dir cc : String) : List String :=
  cc :: (pass_through args ++
    appended b env dir (clang_family name) (fortify_seen args) (sanitizer_seen args)
      (b.freebsd_x86_64 && m32_seen args))

/-- A block of `n` slots whose first slots hold `vec` and whose other slots are
`NULL`. -/
def buf (vec : List String) (n : Nat) : List (Option String) :=
  vec.map some ++ List.replicate (n - vec.length) none

/-- The values `argc` is decremented from when `n` arguments are scanned. -/
def countdown : Nat → List Nat
  | 0 => [1]
  | n + 1 => (n + 2) :: countdown n

/-- What `edit_params` is to do with `argv0 :: args` when `main` calls it, said
with the lists above: the failure, or the state it returns. -/
def rewritten (b : Build) (argv0 : String) (args : List String) (env : Env)
    (dir : String) (quiet : Bool) : Except Failure State :=
  match compiler_binary b (base_name argv0) (env_selected b (base_name argv0) env) with
  | none => .error (.fatal 163 "AFL_CC or AFL_CXX required on MacOS X")
  | some cc =>
    match policy_conflict (env_selected b (base_name argv0) env) (sanitizer_seen args) with
    | some e => .error e
    | none =>
      .ok
        { as_path := some dir
          cc_params :=
            buf (rewritten_vector b (base_name argv0) args
              (env_selected b (base_name argv0) env) dir cc) (args.length + 129)
          cc_par_cnt :=
            (rewritten_vector b (base_name argv0) args
              (env_selected b (base_name argv0) env) dir cc).length
          be_quiet := quiet
          clang_mode := clang_family (base_name argv0)
          fortify_set := fortify_seen args
          asan_set := sanitizer_seen args
          m32_set := b.freebsd_x86_64 && m32_seen args
          env := env_final (env_selected b (base_name argv0) env) (sanitizer_seen args)
          warnings := scan_warnings quiet args
          argv_off := args.length
          visited := List.range' 1 args.length
          counters := countdown args.length }

/-- The argument vector `edit_params` is to hand to `execvp`, or the failure. -/
def rewritten_args (b : Build) (argv0 : String) (args : List String) (env : Env)
    (dir : String) : Except Failure (List String) :=
  match compiler_binary b (base_name argv0) (env_selected b (base_name argv0) env) with
  | none => .error (.fatal 163 "AFL_CC or AFL_CXX required on MacOS X")
  | some cc =>
    match policy_conflict (env_selected b (base_name argv0) env) (sanitizer_seen args) with
    | some e => .error e
    | none =>
      .ok (rewritten_vector b (base_name argv0) args
        (env_selected b (base_name argv0) env) dir cc)

/-- Every flag the policy steps can append. -/
def policy_flag_names : List String :=
  ["-no-integrated-as", "-fstack-protector-all", "-D_FORTIFY_SOURCE=2",
    "-U_FORTIFY_SOURCE", "-fsanitize=address", "-fsanitize=memory", "-g", "-O3",
    "-funroll-loops", "-D__AFL_COMPILER=1", "-DFUZZING_BUILD_MODE_UNSAFE_FOR_PRODUCTION=1",
    "-fno-builtin-strcmp", "-fno-builtin-strncmp", "-fno-builtin-strcasecmp",
    "-fno-builtin-strncasecmp", "-fno-builtin-memcmp", "-fno-builtin-strstr",
    "-fno-builtin-strcasestr"]

/-! ## Running `edit_params` and observing it -/

/-- The largest `argc` that `main`, whose `argc` is an `int`, can be given. -/
def ARGC_MAX : Nat := 2147483647

/-- The call `edit_params(argc, argv)` as `main` makes it: `argc` is the number
of elements of `argv`, `find_as` has stored `dir` in `as_path`. -/
def run (b : Build) (argv0 : String) (args : List String) (env : Env) (dir : String)
    (quiet : Bool) : Except Failure State :=
  edit_params b (args.length + 1) (argv0 :: args) (State.ready env dir quiet)

/-- The argument vector of a run, or its failure. -/
def vector_of (x : Except Failure State) : Except Failure (List String) :=
  x.map (fun s => argVector s.cc_params)

/-- The environment after a run, or its failure. -/
def env_of (x : Except Failure State) : Except Failure Env :=
  x.map (fun s => s.env)

/-- Whether a run ended in `FATAL`. -/
def aborted (x : Except Failure State) : Bool :=
  match x with
  | .error (.fatal _ _) => true
  | _ => false

/-- Whether a run returned. -/
def returned (x : Except Failure State) : Bool :=
  match x with
  | .ok _ => true
  | .error _ => false

/-- The vector in `cc_params` is contiguous and terminated: every slot below
`cc_par_cnt` holds a string and the slot at `cc_par_cnt` is `NULL`. -/
def well_terminated (s : State) : Prop :=
  (∀ i, i < s.cc_par_cnt → ∃ x, s.cc_params[i]? = some (some x)) ∧
    s.cc_params[s.cc_par_cnt]? = some none

/-- Whether a variable is set in the environment, whatever its value. -/
def is_set (env : Env) (name : String) : Bool :=
  (getenv env name).isSome

/-- The variables `edit_params` looks up. -/
def consumed_vars : List String :=
  ["AFL_CC", "AFL_CXX", "AFL_GCJ", "AFL_HARDEN", "AFL_USE_ASAN", "AFL_USE_MSAN",
    "AFL_DONT_OPTIMIZE", "AFL_NO_BUILTIN"]

/-- A build for Linux, with the directory and the variable name that the
`config.h` of the AFL distribution defines. -/
def linux : Build :=
  { apple := false, freebsd_x86_64 := false, CLANG_ENV_VAR := "__AFL_CLANG_MODE",
    AFL_PATH := "/usr/local/lib/afl" }

/-! ## Arithmetic, buffers and the environment -/

theorem u32_dec_succ (n : Nat) (h : n < U32_MOD) : u32_dec (n + 1) = n := by
  unfold u32_dec U32_MOD at *
  omega

theorem set_length_append {α : Type} (l : List α) (a b : α) (r : List α) :
    (l ++ a :: r).set l.length b = l ++ b :: r := by
  induction l with
  | nil => rfl
  | cons x l ih => simp [ih]

theorem buf_length (vec : List String) (n : Nat) (h : vec.length ≤ n) :
    (buf vec n).length = n := by
  simp [buf]
  omega

theorem buf_split (vec : List String) (n : Nat) (h : vec.length < n) :
    buf vec n = vec.map some ++ none :: List.replicate (n - vec.length - 1) none := by
  have e : n - vec.length = (n - vec.length - 1) + 1 := by omega
  unfold buf
  rw [e, List.replicate_succ]
  simp

theorem buf_set (vec : List String) (n : Nat) (x : String) (h : vec.length < n) :
    (buf vec n).set vec.length (some x) = buf (vec ++ [x]) n := by
  rw [buf_split vec n h]
  have e := set_length_append (vec.map some) none (some x)
    (List.replicate (n - vec.length - 1) none)
  rw [List.length_map] at e
  rw [e]
  unfold buf
  simp [Nat.sub_sub]

theorem buf_set_none (vec : List String) (n : Nat) (h : vec.length < n) :
    (buf vec n).set vec.length none = buf vec n := by
  rw [buf_split vec n h]
  have e := set_length_append (vec.map some) none none
    (List.replicate (n - vec.length - 1) none)
  rw [List.length_map] at e
  exact e

theorem argVector_append_none (vec : List String) (r : List (Option String)) :
    argVector (vec.map some ++ none :: r) = vec := by
  induction vec with
  | nil => rfl
  | cons x vec ih => simp [argVector, ih]

theorem argVector_buf (vec : List String) (n : Nat) (h : vec.length < n) :
    argVector (buf vec n) = vec := by
  rw [buf_split vec n h]
  exact argVector_append_none vec _

theorem getenv_setenv (e : Env) (n v k : String) :
    getenv (setenv e n v) k = if n = k then some v else getenv e k := by
  induction e with
  | nil => simp [setenv, getenv]
  | cons p e ih =>
    obtain ⟨a, w⟩ := p
    by_cases h : a = n
    · subst h
      by_cases hk : a = k <;> simp [setenv, getenv, hk]
    · by_cases hk : a = k
      · subst hk
        have h2 : ¬ n = a := fun c => h c.symm
        simp [setenv, getenv, h, h2]
      · simp [setenv, getenv, h, hk, ih]

theorem getenv_setenv_ne (e : Env) (n v k : String) (h : n ≠ k) :
    getenv (setenv e n v) k = getenv e k := by
  rw [getenv_setenv, if_neg h]

theorem getenv_setenv_isSome (e : Env) (n v k : String)
    (h : (getenv e k).isSome = true) : (getenv (setenv e n v) k).isSome = true := by
  rw [getenv_setenv]
  split <;> simp [h]

/-! ## Stores into the buffer -/

theorem push_buf (ap : Option String) (vec : List String) (n : Nat)
    (q cl f a m : Bool) (env : Env) (w : List String) (off : Nat) (vis ctr : List Nat)
    (x : String) (h : vec.length < n) (hn : n < U32_MOD) :
    State.push ⟨ap, buf vec n, vec.length, q, cl, f, a, m, env, w, off, vis, ctr⟩ (some x) =
      .ok ⟨ap, buf (vec ++ [x]) n, (vec ++ [x]).length, q, cl, f, a, m, env, w, off,
        vis, ctr⟩ := by
  have hl : vec.length < (buf vec n).length := by rw [buf_length vec n (by omega)]; exact h
  have hm : (vec.length + 1) % U32_MOD = vec.length + 1 := Nat.mod_eq_of_lt (by omega)
  simp only [State.push, State.store, hl, if_true, buf_set vec n x h, hm,
    List.length_append, List.length_singleton]

theorem store_end_buf (ap : Option String) (vec : List String) (n : Nat)
    (q cl f a m : Bool) (env : Env) (w : List String) (off : Nat) (vis ctr : List Nat)
    (h : vec.length < n) :
    State.store ⟨ap, buf vec n, vec.length, q, cl, f, a, m, env, w, off, vis, ctr⟩
      vec.length none =
      .ok ⟨ap, buf vec n, vec.length, q, cl, f, a, m, env, w, off, vis, ctr⟩ := by
  have hl : vec.length < (buf vec n).length := by rw [buf_length vec n (by omega)]; exact h
  simp only [State.store, hl, if_true, buf_set_none vec n h]

theorem ok_bind (a : State) (f : State → Except Failure State) :
    (Except.ok a >>= f) = f a := rfl

theorem error_bind (e : Failure) (f : State → Except Failure State) :
    (Except.error e >>= f) = Except.error e := rfl

theorem pure_ok (a : State) : (pure a : Except Failure State) = Except.ok a := rfl

theorem add_no_builtin_buf (ap : Option String) (vec : List String) (n : Nat)
    (q cl f a m : Bool) (env : Env) (w : List String) (off : Nat) (vis ctr : List Nat)
    (h : vec.length + 7 < n) (hn : n < U32_MOD) :
    add_no_builtin ⟨ap, buf vec n, vec.length, q, cl, f, a, m, env, w, off, vis, ctr⟩ =
      .ok ⟨ap, buf (vec ++ no_builtin_flags env) n, (vec ++ no_builtin_flags env).length,
        q, cl, f, a, m, env, w, off, vis, ctr⟩ := by
  unfold add_no_builtin no_builtin_flags
  by_cases hB : (getenv env "AFL_NO_BUILTIN").isSome = true
  · rw [if_pos hB, if_pos hB]
    simp (disch := first | omega | (simp only [List.length_append, List.length_cons, List.length_nil]; omega)) only
      [push_buf, ok_bind, List.append_assoc, List.cons_append, List.nil_append]
  · rw [if_neg hB, if_neg hB, List.append_nil]
    rfl

theorem add_optimize_buf (b : Build) (ap : Option String) (vec : List String) (n : Nat)
    (q cl f a m : Bool) (env : Env) (w : List String) (off : Nat) (vis ctr : List Nat)
    (h : vec.length + 5 < n) (hn : n < U32_MOD) :
    add_optimize b ⟨ap, buf vec n, vec.length, q, cl, f, a, m, env, w, off, vis, ctr⟩ =
      .ok ⟨ap, buf (vec ++ optimize_flags b env cl m) n,
        (vec ++ optimize_flags b env cl m).length, q, cl, f, a, m, env, w, off, vis, ctr⟩ := by
  unfold add_optimize optimize_flags
  cases hO : getenv env "AFL_DONT_OPTIMIZE" with
  | some v =>
    simp only [hO, Option.isNone_some, Option.isSome_some, if_true, List.append_nil,
      Bool.false_eq_true, if_false, pure_ok]
  | none =>
    cases hb : b.freebsd_x86_64 <;> cases cl <;> cases m <;>
    simp (disch := first | omega | (simp only [List.length_append, List.length_cons, List.length_nil]; omega)) only
      [hO, Option.isNone_none, Option.isSome_none, if_true, Bool.false_eq_true, if_false,
        push_buf, ok_bind, pure_ok, List.append_assoc, List.cons_append, List.nil_append,
        Bool.not_true, Bool.not_false, Bool.or_true, Bool.or_false, Bool.and_true,
        Bool.and_false, Bool.or_self, Bool.and_self, List.append_nil]

theorem add_harden_buf (ap : Option String) (vec : List String) (n : Nat)
    (q cl f a m : Bool) (env : Env) (w : List String) (off : Nat) (vis ctr : List Nat)
    (h : vec.length + 2 < n) (hn : n < U32_MOD) :
    add_harden ⟨ap, buf vec n, vec.length, q, cl, f, a, m, env, w, off, vis, ctr⟩ =
      .ok ⟨ap, buf (vec ++ harden_flags env f) n, (vec ++ harden_flags env f).length,
        q, cl, f, a, m, env, w, off, vis, ctr⟩ := by
  unfold add_harden harden_flags
  by_cases hH : (getenv env "AFL_HARDEN").isSome = true
  · rw [if_pos hH, if_pos hH]
    cases f <;>
    simp (disch := first | omega | (simp only [List.length_append, List.length_cons, List.length_nil]; omega)) only
      [push_buf, ok_bind, pure_ok, List.append_assoc, List.cons_append, List.nil_append,
        Bool.not_true, Bool.not_false, if_true, Bool.false_eq_true, if_false]
  · rw [if_neg hH, if_neg hH, List.append_nil]
    rfl

theorem add_sanitizer_buf (ap : Option String) (vec : List String) (n : Nat)
    (q cl f a m : Bool) (env : Env) (w : List String) (off : Nat) (vis ctr : List Nat)
    (h : vec.length + 2 < n) (hn : n < U32_MOD) :
    add_sanitizer ⟨ap, buf vec n, vec.length, q, cl, f, a, m, env, w, off, vis, ctr⟩ =
      match policy_conflict env a with
      | some e => .error e
      | none =>
        .ok ⟨ap, buf (vec ++ sanitizer_flags env a) n, (vec ++ sanitizer_flags env a).length,
          q, cl, f, a, m, env_final env a, w, off, vis, ctr⟩ := by
  unfold add_sanitizer policy_conflict sanitizer_flags env_final
  cases a
  · by_cases hA : (getenv env "AFL_USE_ASAN").isSome = true <;>
    by_cases hM : (getenv env "AFL_USE_MSAN").isSome = true <;>
    by_cases hH : (getenv env "AFL_HARDEN").isSome = true <;>
    simp (disch := first | omega | (simp only [List.length_append, List.length_cons, List.length_nil]; omega)) only
      [hA, hM, hH, push_buf, ok_bind, pure_ok, List.append_assoc, List.cons_append,
        List.nil_append, if_true, Bool.false_eq_true, if_false, List.append_nil]
  · simp only [if_true, pure_ok, List.append_nil]

theorem clang_flags_length (cl : Bool) : (clang_flags cl).length ≤ 1 := by
  cases cl <;> simp [clang_flags]

theorem harden_flags_length (env : Env) (f : Bool) : (harden_flags env f).length ≤ 2 := by
  unfold harden_flags
  split
  · split <;> simp
  · simp

theorem sanitizer_flags_length (env : Env) (a : Bool) :
    (sanitizer_flags env a).length ≤ 2 := by
  unfold sanitizer_flags
  split
  · simp
  · split
    · simp
    · split <;> simp

theorem optimize_flags_length (b : Build) (env : Env) (cl m : Bool) :
    (optimize_flags b env cl m).length ≤ 5 := by
  unfold optimize_flags
  split
  · simp
  · split <;> simp

theorem no_builtin_flags_length (env : Env) : (no_builtin_flags env).length ≤ 7 := by
  unfold no_builtin_flags
  split <;> simp

theorem harden_sanitizer_length (env : Env) (f a : Bool)
    (h : policy_conflict env a = none) :
    (harden_flags env f).length + (sanitizer_flags env a).length ≤ 2 := by
  unfold policy_conflict at h
  unfold harden_flags sanitizer_flags
  cases a <;>
  by_cases hA : (getenv env "AFL_USE_ASAN").isSome = true <;>
  by_cases hM : (getenv env "AFL_USE_MSAN").isSome = true <;>
  by_cases hH : (getenv env "AFL_HARDEN").isSome = true <;>
  cases f <;> simp [hA, hM, hH] at h ⊢

theorem getenv_env_final (env : Env) (a : Bool) (k : String) (h : "AFL_USE_ASAN" ≠ k) :
    getenv (env_final env a) k = getenv env k := by
  unfold env_final
  split
  · exact getenv_setenv_ne env _ _ k h
  · rfl

theorem optimize_flags_env_final (b : Build) (env : Env) (a cl m : Bool) :
    optimize_flags b (env_final env a) cl m = optimize_flags b env cl m := by
  unfold optimize_flags
  rw [getenv_env_final env a _ (by decide)]

theorem no_builtin_flags_env_final (env : Env) (a : Bool) :
    no_builtin_flags (env_final env a) = no_builtin_flags env := by
  unfold no_builtin_flags
  rw [getenv_env_final env a _ (by decide)]

theorem append_flags_buf (b : Build) (dir : String) (vec : List String) (n : Nat)
    (q cl f a m : Bool) (env : Env) (w : List String) (off : Nat) (vis ctr : List Nat)
    (h : vec.length + 19 < n) (hn : n < U32_MOD) :
    append_flags b ⟨some dir, buf vec n, vec.length, q, cl, f, a, m, env, w, off, vis, ctr⟩ =
      match policy_conflict env a with
      | some e => .error e
      | none =>
        .ok ⟨some dir, buf (vec ++ appended b env dir cl f a m) n,
          (vec ++ appended b env dir cl f a m).length, q, cl, f, a, m, env_final env a,
          w, off, vis, ctr⟩ := by
  have h1 := clang_flags_length cl
  have h2 := harden_flags_length env f
  have h3 := sanitizer_flags_length env a
  have h4 := optimize_flags_length b env cl m
  have h5 := no_builtin_flags_length env
  have e1 : add_clang ⟨some dir, buf (vec ++ ["-B"] ++ [dir]) n,
      (vec ++ ["-B"] ++ [dir]).length, q, cl, f, a, m, env, w, off, vis, ctr⟩ =
      .ok ⟨some dir, buf (vec ++ ["-B"] ++ [dir] ++ clang_flags cl) n,
        (vec ++ ["-B"] ++ [dir] ++ clang_flags cl).length,
        q, cl, f, a, m, env, w, off, vis, ctr⟩ := by
    unfold add_clang
    cases cl
    · simp only [Bool.false_eq_true, if_false, pure_ok, clang_flags, List.append_nil]
    · simp only [if_true, clang_flags]
      rw [push_buf _ _ _ _ _ _ _ _ _ _ _ _ _ _
        (by simp only [List.length_append, List.length_cons, List.length_nil]; omega) hn]
  unfold append_flags
  rw [push_buf _ _ _ _ _ _ _ _ _ _ _ _ _ _ (by omega) hn, ok_bind]
  try dsimp only
  rw [push_buf _ _ _ _ _ _ _ _ _ _ _ _ _ _ 
      (by simp only [List.length_append, List.length_cons, List.length_nil]; omega)
      hn, ok_bind]
  try dsimp only
  rw [e1, ok_bind]
  rw [add_harden_buf _ _ _ _ _ _ _ _ _ _ _ _ _ 
      (by simp only [List.length_append, List.length_cons, List.length_nil]; omega)
      hn, ok_bind]
  rw [add_sanitizer_buf _ _ _ _ _ _ _ _ _ _ _ _ _ 
      (by simp only [List.length_append, List.length_cons, List.length_nil]; omega)
      hn]
  cases hp : policy_conflict env a with
  | some e => rfl
  | none =>
    try dsimp only
    rw [ok_bind]
    rw [add_optimize_buf _ _ _ _ _ _ _ _ _ _ _ _ _ _ 
      (by simp only [List.length_append, List.length_cons, List.length_nil]; omega)
      hn, ok_bind, optimize_flags_env_final]
    rw [add_no_builtin_buf _ _ _ _ _ _ _ _ _ _ _ _ _
      (by simp only [List.length_append, List.length_cons, List.length_nil]; omega)
      hn, ok_bind, no_builtin_flags_env_final]
    try dsimp only
    rw [store_end_buf _ _ _ _ _ _ _ _ _ _ _ _ _
      (by simp only [List.length_append, List.length_cons, List.length_nil]; omega)]
    have e : vec ++ ["-B"] ++ [dir] ++ clang_flags cl ++ harden_flags env f ++
        sanitizer_flags env a ++ optimize_flags b env cl m ++ no_builtin_flags env =
        vec ++ appended b env dir cl f a m := by
      simp only [appended, policy_flags, List.append_assoc, List.cons_append,
        List.nil_append]
    rw [e]

theorem fetch_mk (ap : Option String) (cc : List (Option String)) (cnt : Nat)
    (q cl f a m : Bool) (env : Env) (w : List String) (off : Nat) (vis ctr : List Nat)
    (x : Nat) :
    State.fetch ⟨ap, cc, cnt, q, cl, f, a, m, env, w, off, vis, ctr⟩ x =
      ⟨ap, cc, cnt, q, cl, f, a, m, env, w, off + 1, vis ++ [off + 1], ctr ++ [x]⟩ := rfl

theorem tick_mk (ap : Option String) (cc : List (Option String)) (cnt : Nat)
    (q cl f a m : Bool) (env : Env) (w : List String) (off : Nat) (vis ctr : List Nat)
    (x : Nat) :
    State.tick ⟨ap, cc, cnt, q, cl, f, a, m, env, w, off, vis, ctr⟩ x =
      ⟨ap, cc, cnt, q, cl, f, a, m, env, w, off, vis, ctr ++ [x]⟩ := rfl

theorem warn_mk (ap : Option String) (cc : List (Option String)) (cnt : Nat)
    (q cl f a m : Bool) (env : Env) (w : List String) (off : Nat) (vis ctr : List Nat)
    (msg : String) :
    State.warn ⟨ap, cc, cnt, q, cl, f, a, m, env, w, off, vis, ctr⟩ msg =
      ⟨ap, cc, cnt, q, cl, f, a, m, env, w ++ (if q then [] else [msg]), off, vis, ctr⟩ := by
  cases q <;> simp [State.warn]

theorem note_m32_mk (b : Build) (cur : String) (ap : Option String)
    (cc : List (Option String)) (cnt : Nat)
    (q cl f a m : Bool) (env : Env) (w : List String) (off : Nat) (vis ctr : List Nat) :
    State.note_m32 ⟨ap, cc, cnt, q, cl, f, a, m, env, w, off, vis, ctr⟩ b cur =
      ⟨ap, cc, cnt, q, cl, f, a, m || (b.freebsd_x86_64 && decide (cur = "-m32")), env, w,
        off, vis, ctr⟩ := by
  unfold State.note_m32
  cases h : (b.freebsd_x86_64 && decide (cur = "-m32")) <;> simp

theorem note_sanitizer_mk (cur : String) (ap : Option String)
    (cc : List (Option String)) (cnt : Nat)
    (q cl f a m : Bool) (env : Env) (w : List String) (off : Nat) (vis ctr : List Nat) :
    State.note_sanitizer ⟨ap, cc, cnt, q, cl, f, a, m, env, w, off, vis, ctr⟩ cur =
      ⟨ap, cc, cnt, q, cl, f, a || is_sanitizer cur, m, env, w, off, vis, ctr⟩ := by
  unfold State.note_sanitizer is_sanitizer
  by_cases h1 : cur = "-fsanitize=address" <;> by_cases h2 : cur = "-fsanitize=memory" <;>
    simp [h1, h2]

theorem note_fortify_mk (cur : String) (ap : Option String)
    (cc : List (Option String)) (cnt : Nat)
    (q cl f a m : Bool) (env : Env) (w : List String) (off : Nat) (vis ctr : List Nat) :
    State.note_fortify ⟨ap, cc, cnt, q, cl, f, a, m, env, w, off, vis, ctr⟩ cur =
      ⟨ap, cc, cnt, q, cl, f || has_fortify cur, a, m, env, w, off, vis, ctr⟩ := by
  unfold State.note_fortify has_fortify
  cases h : strstr cur "FORTIFY_SOURCE" <;> simp

theorem kept_from_attached (cur : String) (rest : List String)
    (hB : strncmp_eq cur "-B" 2 = true) (hN : ¬ nulAt cur 2 = true) :
    kept_from false (cur :: rest) = kept_from false rest := by
  have hN2 : nulAt cur 2 = false := by simpa using hN
  simp only [kept_from, hB, if_true, hN2]

theorem kept_from_bare (cur nxt : String) (rest : List String)
    (hB : strncmp_eq cur "-B" 2 = true) (hN : nulAt cur 2 = true) :
    kept_from false (cur :: nxt :: rest) = kept_from false rest := by
  simp only [kept_from, hB, if_true, hN]

theorem kept_from_bare_last (cur : String)
    (hB : strncmp_eq cur "-B" 2 = true) : kept_from false [cur] = [] := by
  simp only [kept_from, hB, if_true]

theorem kept_from_dropped (cur : String) (rest : List String)
    (hB : ¬ strncmp_eq cur "-B" 2 = true) (hD : cur = "-integrated-as" ∨ cur = "-pipe") :
    kept_from false (cur :: rest) = kept_from false rest := by
  have hB2 : strncmp_eq cur "-B" 2 = false := by simpa using hB
  simp only [kept_from, hB2, Bool.false_eq_true, if_false, hD, if_true]

theorem kept_from_kept (cur : String) (rest : List String)
    (hB : ¬ strncmp_eq cur "-B" 2 = true) (hD : ¬ (cur = "-integrated-as" ∨ cur = "-pipe")) :
    kept_from false (cur :: rest) = cur :: kept_from false rest := by
  have hB2 : strncmp_eq cur "-B" 2 = false := by simpa using hB
  simp only [kept_from, hB2, Bool.false_eq_true, if_false, hD]

theorem scan_warnings_attached (q : Bool) (cur : String) (rest : List String)
    (hB : strncmp_eq cur "-B" 2 = true) (hN : ¬ nulAt cur 2 = true) :
    scan_warnings q (cur :: rest) =
      (if q then [] else ["-B is already set, overriding"]) ++ scan_warnings q rest := by
  have hN2 : nulAt cur 2 = false := by simpa using hN
  cases q <;> simp [scan_warnings, overrides_from, hB, hN2, List.replicate_succ]

theorem scan_warnings_bare (q : Bool) (cur nxt : String) (rest : List String)
    (hB : strncmp_eq cur "-B" 2 = true) (hN : nulAt cur 2 = true) :
    scan_warnings q (cur :: nxt :: rest) =
      (if q then [] else ["-B is already set, overriding"]) ++ scan_warnings q rest := by
  cases q <;> simp [scan_warnings, overrides_from, hB, hN, List.replicate_succ]

theorem scan_warnings_bare_last (q : Bool) (cur : String)
    (hB : strncmp_eq cur "-B" 2 = true) :
    scan_warnings q [cur] = (if q then [] else ["-B is already set, overriding"]) := by
  cases q <;> simp [scan_warnings, overrides_from, hB]

theorem scan_warnings_other (q : Bool) (cur : String) (rest : List String)
    (hB : ¬ strncmp_eq cur "-B" 2 = true) :
    scan_warnings q (cur :: rest) = scan_warnings q rest := by
  cases q <;> simp [scan_warnings, overrides_from, hB]

theorem u32_dec_one : u32_dec 1 = 0 := by
  unfold u32_dec U32_MOD
  omega

theorem scan_nil (b : Build) (s : State) : scan b [] 1 s = .ok (s.tick 1) := by
  rw [scan, u32_dec_one, if_pos rfl]

theorem scan_buf (b : Build) (k : Nat) : ∀ (l : List String), l.length ≤ k →
    ∀ (ap : Option String) (vec : List String) (n : Nat) (q cl f a m : Bool) (env : Env)
      (w : List String) (off : Nat) (vis ctr : List Nat),
      vec.length + l.length < n → n < U32_MOD →
      scan b l (l.length + 1)
        ⟨ap, buf vec n, vec.length, q, cl, f, a, m, env, w, off, vis, ctr⟩ =
      .ok ⟨ap, buf (vec ++ kept_from false l) n, (vec ++ kept_from false l).length, q, cl,
        f || (kept_from false l).any has_fortify,
        a || (kept_from false l).any is_sanitizer,
        m || (b.freebsd_x86_64 && (kept_from false l).any (fun t => decide (t = "-m32"))),
        env, w ++ scan_warnings q l, off + l.length,
        vis ++ List.range' (off + 1) l.length, ctr ++ countdown l.length⟩ := by
  induction k with
  | zero =>
    intro l hl ap vec n q cl f a m env w off vis ctr h hn
    have e : l = [] := List.length_eq_zero.mp (by omega)
    subst e
    rw [List.length_nil, scan_nil]
    cases q <;> simp [State.tick, kept_from, scan_warnings, overrides_from, countdown]
  | succ k ih =>
    intro l hl ap vec n q cl f a m env w off vis ctr h hn
    cases l with
    | nil =>
      rw [List.length_nil, scan_nil]
      cases q <;> simp [State.tick, kept_from, scan_warnings, overrides_from, countdown]
    | cons cur rest =>
      rw [List.length_cons] at h hl
      have hd : u32_dec (rest.length + 1 + 1) = rest.length + 1 :=
        u32_dec_succ _ (by omega)
      rw [List.length_cons]
      unfold scan
      simp only [hd, Nat.succ_ne_zero, if_false, fetch_mk, warn_mk, note_m32_mk,
        note_sanitizer_mk, note_fortify_mk]
      by_cases hB : strncmp_eq cur "-B" 2 = true
      · simp only [hB, if_true]
        by_cases hN : nulAt cur 2 = true
        · cases rest with
          | nil =>
            simp only [hN, List.length_nil, Nat.zero_add, gt_iff_lt, Nat.lt_irrefl,
              decide_False, Bool.and_false, Bool.false_eq_true, if_false]
            rw [kept_from_bare_last cur hB, scan_warnings_bare_last q cur hB, scan_nil,
              tick_mk]
            simp [countdown, List.range'_succ]
          | cons nxt rest2 =>
            rw [List.length_cons] at h hl
            have hd2 : u32_dec (rest2.length + 1 + 1) = rest2.length + 1 :=
              u32_dec_succ _ (by omega)
            have hgt : decide (rest2.length + 1 + 1 > 1) = true := by
              simp
            simp only [hN, List.length_cons, hgt, Bool.and_true, if_true, hd2]
            rw [kept_from_bare cur nxt rest2 hB hN, scan_warnings_bare q cur nxt rest2 hB hN,
              ih rest2 (by omega) _ _ _ _ _ _ _ _ _ _ _ _ _ (by omega) hn]
            refine congrArg Except.ok ?_
            congr 1 <;> first
              | omega
              | simp [countdown, List.range'_succ, Bool.or_assoc, Bool.and_or_distrib_left]
        · have hN2 : nulAt cur 2 = false := by simpa using hN
          simp only [hN2, Bool.false_and, Bool.false_eq_true, if_false]
          rw [kept_from_attached cur rest hB hN, scan_warnings_attached q cur rest hB hN,
            ih rest (by omega) _ _ _ _ _ _ _ _ _ _ _ _ _ (by omega) hn]
          refine congrArg Except.ok ?_
          congr 1 <;> first
            | omega
            | simp [countdown, List.range'_succ, Bool.or_assoc, Bool.and_or_distrib_left]
      · rw [if_neg hB]
        by_cases hI : cur = "-integrated-as"
        · rw [if_pos hI, kept_from_dropped cur rest hB (Or.inl hI),
            scan_warnings_other q cur rest hB,
            ih rest (by omega) _ _ _ _ _ _ _ _ _ _ _ _ _ (by omega) hn]
          refine congrArg Except.ok ?_
          congr 1 <;> first
            | omega
            | simp [countdown, List.range'_succ, Bool.or_assoc, Bool.and_or_distrib_left]
        · rw [if_neg hI]
          by_cases hP : cur = "-pipe"
          · rw [if_pos hP, kept_from_dropped cur rest hB (Or.inr hP),
              scan_warnings_other q cur rest hB,
              ih rest (by omega) _ _ _ _ _ _ _ _ _ _ _ _ _ (by omega) hn]
            refine congrArg Except.ok ?_
            congr 1 <;> first
              | omega
              | simp [countdown, List.range'_succ, Bool.or_assoc, Bool.and_or_distrib_left]
          · rw [if_neg hP, push_buf _ _ _ _ _ _ _ _ _ _ _ _ _ _ (by omega) hn]
            simp only []
            have hD : ¬ (cur = "-integrated-as" ∨ cur = "-pipe") := by
              intro c
              cases c with
              | inl c => exact hI c
              | inr c => exact hP c
            rw [kept_from_kept cur rest hB hD, scan_warnings_other q cur rest hB,
              ih rest (by omega) _ _ _ _ _ _ _ _ _ _ _ _ _
                (by simp only [List.length_append, List.length_cons, List.length_nil]; omega)
                hn]
            refine congrArg Except.ok ?_
            congr 1 <;> first
              | omega
              | simp [countdown, List.range'_succ, Bool.or_assoc, Bool.and_or_distrib_left]

theorem kept_from_length (sk : Bool) (l : List String) :
    (kept_from sk l).length ≤ l.length := by
  induction l generalizing sk with
  | nil => simp [kept_from]
  | cons cur rest ih =>
    cases sk
    · simp only [kept_from]
      split
      · exact Nat.le_trans (ih _) (by simp)
      · split
        · exact Nat.le_trans (ih _) (by simp)
        · simpa using ih false
    · simp only [kept_from]
      exact Nat.le_trans (ih _) (by simp)

theorem replicate_set_zero (n : Nat) (c : String) (h : 0 < n) :
    (List.replicate n (none : Option String)).set 0 (some c) = buf [c] n := by
  cases n with
  | zero => omega
  | succ n => simp [buf, List.replicate_succ]

theorem choose_compiler_buf (b : Build) (name : String) (ap : Option String) (n : Nat)
    (q f a m : Bool) (env : Env) (w : List String) (off : Nat) (vis ctr : List Nat)
    (h : 0 < n) :
    choose_compiler b name
        ⟨ap, List.replicate n none, 1, q, false, f, a, m, env, w, off, vis, ctr⟩ =
      match compiler_binary b name (env_selected b name env) with
      | none => .error (.fatal 163 "AFL_CC or AFL_CXX required on MacOS X")
      | some cc =>
        .ok ⟨ap, buf [cc] n, [cc].length, q, clang_family name, f, a, m,
          env_selected b name env, w, off, vis, ctr⟩ := by
  unfold choose_compiler compiler_binary env_selected clang_family
  by_cases hc : strncmp_eq name "afl-clang" 9 = true
  · simp only [hc, if_true]
    by_cases hx : name = "afl-clang++"
    · simp [hx, State.store, h, replicate_set_zero]
    · simp [hx, State.store, h, replicate_set_zero]
  · have hc2 : strncmp_eq name "afl-clang" 9 = false := by simpa using hc
    simp only [hc2, Bool.false_eq_true, if_false]
    cases hA : b.apple
    · simp only [Bool.false_eq_true, if_false]
      by_cases hg : name = "afl-g++"
      · simp [hg, State.store, h, replicate_set_zero]
      · by_cases hj : name = "afl-gcj"
        · simp [hj, State.store, h, replicate_set_zero]
        · simp [hg, hj, State.store, h, replicate_set_zero]
    · simp only [if_true]
      generalize (if name = "afl-g++" then getenv env "AFL_CXX"
        else if name = "afl-gcj" then getenv env "AFL_GCJ" else getenv env "AFL_CC") = alt
      cases alt with
      | none =>
        cases n with
        | zero => omega
        | succ n => simp [State.store, List.replicate_succ]
      | some v => simp [State.store, h, replicate_set_zero, buf]

/-- The refinement on which the statements below rest: run the way `main`
runs it, `edit_params` does what `rewritten` says. -/
theorem edit_params_eq (b : Build) (argv0 : String) (args : List String) (env : Env)
    (dir : String) (quiet : Bool) (hn : args.length + 129 < U32_MOD) :
    edit_params b (args.length + 1) (argv0 :: args) (State.ready env dir quiet) =
      rewritten b argv0 args env dir quiet := by
  have hm : (args.length + 1 + 128) % U32_MOD = args.length + 129 :=
    Nat.mod_eq_of_lt (by omega)
  have hk := kept_from_length false args
  unfold edit_params rewritten edit_params_entry State.ready State.init
  simp only [hm]
  rw [choose_compiler_buf b (base_name argv0) _ _ _ _ _ _ _ _ _ _ _ (by omega)]
  cases compiler_binary b (base_name argv0) (env_selected b (base_name argv0) env) with
  | none => rfl
  | some cc =>
    simp only [ok_bind]
    rw [scan_buf b args.length args (Nat.le_refl _) _ _ _ _ _ _ _ _ _ _ _ _ _
      (by simp only [List.length_cons, List.length_nil]; omega) (by omega), ok_bind]
    rw [append_flags_buf b dir _ _ _ _ _ _ _ _ _ _ _ _
      (by simp only [List.length_append, List.length_cons, List.length_nil]; omega)
      (by omega)]
    simp only [Bool.false_or, List.nil_append, Nat.zero_add, rewritten_vector,
      sanitizer_seen, fortify_seen, m32_seen, pass_through, List.singleton_append,
      List.cons_append]

/-! ## What a run yields -/

theorem run_eq (b : Build) (argv0 : String) (args : List String) (env : Env)
    (dir : String) (quiet : Bool) (hn : args.length + 1 ≤ ARGC_MAX) :
    run b argv0 args env dir quiet = rewritten b argv0 args env dir quiet := by
  unfold run
  exact edit_params_eq b argv0 args env dir quiet (by unfold ARGC_MAX at hn; unfold U32_MOD; omega)

theorem policy_flags_length (b : Build) (env : Env) (cl f a m : Bool)
    (h : policy_conflict env a = none) :
    (policy_flags b env cl f a m).length ≤ 15 := by
  have h1 := clang_flags_length cl
  have h2 := harden_sanitizer_length env f a h
  have h4 := optimize_flags_length b env cl m
  have h5 := no_builtin_flags_length env
  simp only [policy_flags, List.length_append]
  omega

theorem rewritten_vector_length (b : Build) (name : String) (args : List String)
    (env : Env) (dir cc : String)
    (h : policy_conflict env (sanitizer_seen args) = none) :
    (rewritten_vector b name args env dir cc).length ≤ args.length + 18 := by
  have h1 := kept_from_length false args
  have h2 := policy_flags_length b env (clang_family name) (fortify_seen args)
    (sanitizer_seen args) (b.freebsd_x86_64 && m32_seen args) h
  simp only [rewritten_vector, appended, pass_through, List.length_cons,
    List.length_append]
  omega

theorem vector_of_rewritten (b : Build) (argv0 : String) (args : List String) (env : Env)
    (dir : String) (quiet : Bool) :
    vector_of (rewritten b argv0 args env dir quiet) = rewritten_args b argv0 args env dir := by
  unfold vector_of rewritten rewritten_args
  cases compiler_binary b (base_name argv0) (env_selected b (base_name argv0) env) with
  | none => rfl
  | some cc =>
    cases hp : policy_conflict (env_selected b (base_name argv0) env) (sanitizer_seen args) with
    | some e => rfl
    | none =>
      have hl := rewritten_vector_length b (base_name argv0) args
        (env_selected b (base_name argv0) env) dir cc hp
      simp only [Except.map]
      rw [argVector_buf _ _ (by omega)]

theorem run_vector (b : Build) (argv0 : String) (args : List String) (env : Env)
    (dir : String) (quiet : Bool) (hn : args.length + 1 ≤ ARGC_MAX) :
    vector_of (run b argv0 args env dir quiet) = rewritten_args b argv0 args env dir := by
  rw [run_eq b argv0 args env dir quiet hn, vector_of_rewritten]

theorem getenv_env_selected (b : Build) (name : String) (env : Env) (k : String)
    (h : b.CLANG_ENV_VAR ≠ k) :
    getenv (env_selected b name env) k = getenv env k := by
  unfold env_selected
  split
  · exact getenv_setenv_ne env _ _ k h
  · rfl

theorem fresh_ne (b : Build) (hv : b.CLANG_ENV_VAR ∉ consumed_vars) (k : String)
    (hk : k ∈ consumed_vars) : b.CLANG_ENV_VAR ≠ k :=
  fun h => hv (h ▸ hk)

theorem compiler_binary_fresh (b : Build) (hv : b.CLANG_ENV_VAR ∉ consumed_vars)
    (name : String) (env : Env) :
    compiler_binary b name (env_selected b name env) = compiler_binary b name env := by
  unfold compiler_binary
  rw [getenv_env_selected b name env "AFL_CXX" (fresh_ne b hv _ (by decide)),
    getenv_env_selected b name env "AFL_CC" (fresh_ne b hv _ (by decide)),
    getenv_env_selected b name env "AFL_GCJ" (fresh_ne b hv _ (by decide))]

theorem policy_conflict_fresh (b : Build) (hv : b.CLANG_ENV_VAR ∉ consumed_vars)
    (name : String) (env : Env) (a : Bool) :
    policy_conflict (env_selected b name env) a = policy_conflict env a := by
  unfold policy_conflict
  rw [getenv_env_selected b name env "AFL_USE_ASAN" (fresh_ne b hv _ (by decide)),
    getenv_env_selected b name env "AFL_USE_MSAN" (fresh_ne b hv _ (by decide)),
    getenv_env_selected b name env "AFL_HARDEN" (fresh_ne b hv _ (by decide))]

theorem policy_flags_fresh (b : Build) (hv : b.CLANG_ENV_VAR ∉ consumed_vars)
    (name : String) (env : Env) (cl f a m : Bool) :
    policy_flags b (env_selected b name env) cl f a m = policy_flags b env cl f a m := by
  unfold policy_flags harden_flags sanitizer_flags optimize_flags no_builtin_flags
  rw [getenv_env_selected b name env "AFL_USE_ASAN" (fresh_ne b hv _ (by decide)),
    getenv_env_selected b name env "AFL_USE_MSAN" (fresh_ne b hv _ (by decide)),
    getenv_env_selected b name env "AFL_HARDEN" (fresh_ne b hv _ (by decide)),
    getenv_env_selected b name env "AFL_DONT_OPTIMIZE" (fresh_ne b hv _ (by decide)),
    getenv_env_selected b name env "AFL_NO_BUILTIN" (fresh_ne b hv _ (by decide))]

theorem rewritten_args_fresh (b : Build) (hv : b.CLANG_ENV_VAR ∉ consumed_vars)
    (argv0 : String) (args : List String) (env : Env) (dir : String) :
    rewritten_args b argv0 args env dir =
      match compiler_binary b (base_name argv0) env with
      | none => .error (.fatal 163 "AFL_CC or AFL_CXX required on MacOS X")
      | some cc =>
        match policy_conflict env (sanitizer_seen args) with
        | some e => .error e
        | none => .ok (rewritten_vector b (base_name argv0) args env dir cc) := by
  unfold rewritten_args rewritten_vector appended
  rw [compiler_binary_fresh b hv, policy_conflict_fresh b hv, policy_flags_fresh b hv]

theorem aborted_eq (x : Except Failure State) :
    aborted x = match vector_of x with
      | .error (.fatal _ _) => true
      | _ => false := by
  cases x with
  | ok s => rfl
  | error e => cases e <;> rfl

theorem returned_eq (x : Except Failure State) :
    returned x = match vector_of x with
      | .ok _ => true
      | .error _ => false := by
  cases x <;> rfl

theorem compiler_binary_isSome (b : Build) (ha : b.apple = false) (name : String)
    (env : Env) : ∃ cc, compiler_binary b name env = some cc := by
  unfold compiler_binary
  rw [ha]
  simp only [Bool.false_eq_true, if_false]
  split
  · split <;> exact ⟨_, rfl⟩
  · split
    · exact ⟨_, rfl⟩
    · split <;> exact ⟨_, rfl⟩

theorem policy_conflict_fatal (env : Env) (a : Bool) (e : Failure)
    (h : policy_conflict env a = some e) : ∃ l m, e = .fatal l m := by
  unfold policy_conflict at h
  split at h
  · cases h
  · split at h
    · split at h
      · exact ⟨_, _, (Option.some.inj h).symm⟩
      · split at h
        · exact ⟨_, _, (Option.some.inj h).symm⟩
        · cases h
    · split at h
      · split at h
        · exact ⟨_, _, (Option.some.inj h).symm⟩
        · cases h
      · cases h

/-- On a build that is not for Apple, a run that does not abort yields the
vector of the list functions, and no policy conflict was found. -/
theorem run_not_aborted (b : Build) (ha : b.apple = false)
    (hv : b.CLANG_ENV_VAR ∉ consumed_vars) (argv0 : String) (args : List String)
    (env : Env) (dir : String) (quiet : Bool) (hn : args.length + 1 ≤ ARGC_MAX)
    (hok : aborted (run b argv0 args env dir quiet) = false) :
    ∃ cc, compiler_binary b (base_name argv0) env = some cc ∧
      policy_conflict env (sanitizer_seen args) = none ∧
      vector_of (run b argv0 args env dir quiet) =
        .ok (rewritten_vector b (base_name argv0) args env dir cc) := by
  obtain ⟨cc, hcc⟩ := compiler_binary_isSome b ha (base_name argv0) env
  rw [aborted_eq, run_vector b argv0 args env dir quiet hn,
    rewritten_args_fresh b hv, hcc] at hok
  rw [run_vector b argv0 args env dir quiet hn, rewritten_args_fresh b hv, hcc]
  cases hp : policy_conflict env (sanitizer_seen args) with
  | some e =>
    obtain ⟨l, m, he⟩ := policy_conflict_fatal env _ e hp
    rw [hp, he] at hok
    simp at hok
  | none => exact ⟨cc, rfl, rfl, rfl⟩

/-- On every build, a run that does not abort has chosen a compiler binary,
found no policy conflict, and yields the vector of the list functions. -/
theorem run_returns (b : Build) (hv : b.CLANG_ENV_VAR ∉ consumed_vars)
    (argv0 : String) (args : List String) (env : Env) (dir : String) (quiet : Bool)
    (hn : args.length + 1 ≤ ARGC_MAX)
    (hok : aborted (run b argv0 args env dir quiet) = false) :
    ∃ cc, compiler_binary b (base_name argv0) env = some cc ∧
      policy_conflict env (sanitizer_seen args) = none ∧
      vector_of (run b argv0 args env dir quiet) =
        .ok (rewritten_vector b (base_name argv0) args env dir cc) := by
  rw [aborted_eq, run_vector b argv0 args env dir quiet hn,
    rewritten_args_fresh b hv] at hok
  rw [run_vector b argv0 args env dir quiet hn, rewritten_args_fresh b hv]
  cases hcc : compiler_binary b (base_name argv0) env with
  | none =>
    rw [hcc] at hok
    simp at hok
  | some cc =>
    rw [hcc] at hok
    cases hp : policy_conflict env (sanitizer_seen args) with
    | some e =>
      obtain ⟨l, m, he⟩ := policy_conflict_fatal env _ e hp
      rw [hp, he] at hok
      simp at hok
    | none => exact ⟨cc, rfl, rfl, rfl⟩

theorem main_state (env : Env) (d : String) (isatty2 : Bool) :
    ({ (if isatty2 && (getenv (State.init env).env "AFL_QUIET").isNone then State.init env
        else { State.init env with be_quiet := true }) with as_path := some d } : State) =
      State.ready env d (!(isatty2 && (getenv env "AFL_QUIET").isNone)) := by
  have e : (State.init env).env = env := rfl
  rw [e]
  cases (isatty2 && (getenv env "AFL_QUIET").isNone) <;> rfl

/-- Where `run` comes from: once `find_as` has found the directory `d`, what
`main` does with at least one argument is the run of `edit_params` from the
state `State.ready`. -/
theorem main_eq_run (b : Build) (access_x : String → Bool) (isatty2 : Bool)
    (argv0 arg : String) (args : List String) (env : Env) (d : String)
    (h : ∀ s : State, find_as b access_x argv0 s = .ok { s with as_path := some d }) :
    main b access_x isatty2 (argv0 :: arg :: args) env =
      run b argv0 (arg :: args) env d (!(isatty2 && (getenv env "AFL_QUIET").isNone)) := by
  have hl : ¬ (argv0 :: arg :: args).length < 2 := by
    simp only [List.length_cons]
    omega
  unfold main run
  rw [if_neg hl]
  dsimp only
  rw [h, ok_bind, main_state]
  rfl

/-! ## The claims about `edit_params`

The statements are about `run`, the call of `edit_params` that `main` makes.
Where they need it they assume that the build is not for Apple (`ha`) or not
for FreeBSD on x86_64 (`hf`), that `CLANG_ENV_VAR`, a constant of the absent
`config.h`, is not one of the variables `edit_params` reads (`hv`), and that
the number of arguments fits the `int` that `main` receives (`hn`). -/

/-- C1: on a build that is neither for Apple nor for FreeBSD, whenever
`edit_params` does not abort, the output vector is the compiler binary, the
pass-through tokens, `-B` with the assembler directory, `-no-integrated-as`
for the clang family, the hardening flags, the sanitizer flags, the
optimisation flags and the no-builtin flags, in this order and each under its
condition. -/
theorem C1_output_vector (b : Build) (ha : b.apple = false)
    (hf : b.freebsd_x86_64 = false) (hv : b.CLANG_ENV_VAR ∉ consumed_vars)
    (argv0 : String) (args : List String) (env : Env) (dir : String) (quiet : Bool)
    (hn : args.length + 1 ≤ ARGC_MAX)
    (hok : aborted (run b argv0 args env dir quiet) = false) :
    vector_of (run b argv0 args env dir quiet) =
      .ok ((compiler_binary b (base_name argv0) env).toList ++ pass_through args ++
        ["-B", dir] ++
        (if clang_family (base_name argv0) then ["-no-integrated-as"] else []) ++
        (if is_set env "AFL_HARDEN" then
          "-fstack-protector-all" ::
            (if fortify_seen args then [] else ["-D_FORTIFY_SOURCE=2"])
         else []) ++
        (if sanitizer_seen args then []
         else if is_set env "AFL_USE_ASAN" then ["-U_FORTIFY_SOURCE", "-fsanitize=address"]
         else if is_set env "AFL_USE_MSAN" then ["-U_FORTIFY_SOURCE", "-fsanitize=memory"]
         else []) ++
        (if is_set env "AFL_DONT_OPTIMIZE" then []
         else ["-g", "-O3", "-funroll-loops", "-D__AFL_COMPILER=1",
           "-DFUZZING_BUILD_MODE_UNSAFE_FOR_PRODUCTION=1"]) ++
        (if is_set env "AFL_NO_BUILTIN" then
          ["-fno-builtin-strcmp", "-fno-builtin-strncmp", "-fno-builtin-strcasecmp",
            "-fno-builtin-strncasecmp", "-fno-builtin-memcmp", "-fno-builtin-strstr",
            "-fno-builtin-strcasestr"]
         else [])) := by
  obtain ⟨cc, hcc, _, hvec⟩ := run_not_aborted b ha hv argv0 args env dir quiet hn hok
  rw [hvec, hcc]
  refine congrArg Except.ok ?_
  simp only [rewritten_vector, appended, policy_flags, clang_flags, harden_flags,
    sanitizer_flags, optimize_flags, no_builtin_flags, is_set, hf, Option.toList,
    Bool.false_and, Bool.false_eq_true, if_false, List.append_assoc, List.cons_append,
    List.nil_append]
  split_ifs <;> rfl

/-- Witness of C1: `afl-clang -B x -O2` with hardening and no built-ins. -/
theorem C1_output_vector_witness :
    vector_of (run linux "/usr/bin/afl-clang" ["-B", "x", "-O2"]
        [("AFL_HARDEN", "1"), ("AFL_NO_BUILTIN", "1")] "/usr/lib/afl" true) =
      .ok ["clang", "-O2", "-B", "/usr/lib/afl", "-no-integrated-as",
        "-fstack-protector-all", "-D_FORTIFY_SOURCE=2", "-g", "-O3", "-funroll-loops",
        "-D__AFL_COMPILER=1", "-DFUZZING_BUILD_MODE_UNSAFE_FOR_PRODUCTION=1",
        "-fno-builtin-strcmp", "-fno-builtin-strncmp", "-fno-builtin-strcasecmp",
        "-fno-builtin-strncasecmp", "-fno-builtin-memcmp", "-fno-builtin-strstr",
        "-fno-builtin-strcasestr"] :=
  C1_output_vector linux rfl rfl (by decide) "/usr/bin/afl-clang" ["-B", "x", "-O2"]
    [("AFL_HARDEN", "1"), ("AFL_NO_BUILTIN", "1")] "/usr/lib/afl" true (by decide)
    (by decide!)

/-- C2: on a build that is not for Apple, `edit_params` aborts exactly when no
sanitizer flag was recorded during the scan and either `AFL_USE_ASAN` is set
with `AFL_USE_MSAN` or `AFL_HARDEN`, or `AFL_USE_MSAN` is set with
`AFL_HARDEN`; in every other case it returns. -/
theorem C2_abort_iff (b : Build) (ha : b.apple = false)
    (hv : b.CLANG_ENV_VAR ∉ consumed_vars)
    (argv0 : String) (args : List String) (env : Env) (dir : String) (quiet : Bool)
    (hn : args.length + 1 ≤ ARGC_MAX) :
    aborted (run b argv0 args env dir quiet) =
        (!sanitizer_seen args &&
          ((is_set env "AFL_USE_ASAN" &&
              (is_set env "AFL_USE_MSAN" || is_set env "AFL_HARDEN")) ||
            (is_set env "AFL_USE_MSAN" && is_set env "AFL_HARDEN"))) ∧
      returned (run b argv0 args env dir quiet) =
        !aborted (run b argv0 args env dir quiet) := by
  obtain ⟨cc, hcc⟩ := compiler_binary_isSome b ha (base_name argv0) env
  rw [aborted_eq, returned_eq, run_vector b argv0 args env dir quiet hn,
    rewritten_args_fresh b hv, hcc]
  simp only [policy_conflict, is_set]
  cases sanitizer_seen args <;>
    cases (getenv env "AFL_USE_ASAN").isSome <;>
    cases (getenv env "AFL_USE_MSAN").isSome <;>
    cases (getenv env "AFL_HARDEN").isSome <;> simp

/-- Witness of C2: `AFL_USE_MSAN` with `AFL_HARDEN` aborts. -/
theorem C2_abort_iff_witness :
    aborted (run linux "afl-gcc" ["-c", "a.c"]
        [("AFL_USE_MSAN", "1"), ("AFL_HARDEN", "1")] "/usr/lib/afl" false) = true ∧
      returned (run linux "afl-gcc" ["-c", "a.c"]
        [("AFL_USE_MSAN", "1"), ("AFL_HARDEN", "1")] "/usr/lib/afl" false) =
        !aborted (run linux "afl-gcc" ["-c", "a.c"]
          [("AFL_USE_MSAN", "1"), ("AFL_HARDEN", "1")] "/usr/lib/afl" false) :=
  C2_abort_iff linux rfl (by decide) "afl-gcc" ["-c", "a.c"]
    [("AFL_USE_MSAN", "1"), ("AFL_HARDEN", "1")] "/usr/lib/afl" false (by decide)

/-! ### Pass-through tokens -/

theorem kept_from_filter (l : List String)
    (h : ∀ t ∈ l, strncmp_eq t "-B" 2 = false) :
    kept_from false l =
      l.filter (fun t => decide (t ≠ "-integrated-as") && decide (t ≠ "-pipe")) := by
  induction l with
  | nil => rfl
  | cons cur rest ih =>
    have hc : strncmp_eq cur "-B" 2 = false := h cur (List.mem_cons_self _ _)
    have hr := ih (fun t ht => h t (List.mem_cons_of_mem _ ht))
    have hB : ¬ strncmp_eq cur "-B" 2 = true := by simp [hc]
    by_cases hD : cur = "-integrated-as" ∨ cur = "-pipe"
    · have hp : ¬ (decide (cur ≠ "-integrated-as") && decide (cur ≠ "-pipe")) = true := by
        cases hD with
        | inl e => simp [e]
        | inr e => simp [e]
      rw [kept_from_dropped cur rest hB hD, hr, List.filter_cons]
      exact (if_neg hp).symm
    · have hp : (decide (cur ≠ "-integrated-as") && decide (cur ≠ "-pipe")) = true := by
        simp only [not_or] at hD
        simp [hD.1, hD.2]
      rw [kept_from_kept cur rest hB hD, hr, List.filter_cons]
      exact (if_pos hp).symm

theorem kept_from_no_B (sk : Bool) (l : List String) :
    ∀ t ∈ kept_from sk l, strncmp_eq t "-B" 2 = false := by
  induction l generalizing sk with
  | nil => simp [kept_from]
  | cons cur rest ih =>
    cases sk
    · simp only [kept_from]
      split
      · exact ih _
      · split
        · exact ih _
        · intro t ht
          cases ht with
          | head => simp_all
          | tail _ ht => exact ih false t ht
    · simp only [kept_from]
      exact ih _

/-- C3: when no argument begins with `-B` and `edit_params` does not abort,
the output is the compiler binary, then the arguments in their order without
the tokens `-integrated-as` and `-pipe`, then the appended `-B` with the
assembler directory and the policy flags. -/
theorem C3_order_preserved (b : Build) (hv : b.CLANG_ENV_VAR ∉ consumed_vars)
    (argv0 : String) (args : List String) (env : Env) (dir : String) (quiet : Bool)
    (hn : args.length + 1 ≤ ARGC_MAX)
    (hB : ∀ t ∈ args, strncmp_eq t "-B" 2 = false)
    (hok : aborted (run b argv0 args env dir quiet) = false) :
    vector_of (run b argv0 args env dir quiet) =
      .ok ((compiler_binary b (base_name argv0) env).toList ++
        args.filter (fun t => decide (t ≠ "-integrated-as") && decide (t ≠ "-pipe")) ++
        "-B" :: dir :: policy_flags b env (clang_family (base_name argv0))
          (fortify_seen args) (sanitizer_seen args) (b.freebsd_x86_64 && m32_seen args)) := by
  obtain ⟨cc, hcc, _, hvec⟩ := run_returns b hv argv0 args env dir quiet hn hok
  rw [hvec, hcc, ← kept_from_filter args hB]
  simp [rewritten_vector, appended, pass_through, Option.toList]

/-- Witness of C3: `-pipe` and `-integrated-as` go, the rest stays in order. -/
theorem C3_order_preserved_witness :
    vector_of (run linux "afl-gcc" ["-pipe", "-c", "-integrated-as", "a.c", "-c"]
        [("AFL_DONT_OPTIMIZE", "1")] "/usr/lib/afl" true) =
      .ok ["gcc", "-c", "a.c", "-c", "-B", "/usr/lib/afl"] :=
  C3_order_preserved linux (by decide) "afl-gcc"
    ["-pipe", "-c", "-integrated-as", "a.c", "-c"] [("AFL_DONT_OPTIMIZE", "1")]
    "/usr/lib/afl" true (by decide) (by decide) (by decide!)

theorem policy_flags_subset (b : Build) (env : Env) (cl f a m : Bool) :
    ∀ t ∈ policy_flags b env cl f a m, t ∈ policy_flag_names := by
  intro t ht
  simp only [policy_flags, clang_flags, harden_flags, sanitizer_flags, optimize_flags,
    no_builtin_flags, List.mem_append] at ht
  rcases ht with h | h | h | h | h
  · split at h <;> (revert t; decide)
  · split at h
    · split at h <;> (revert t; decide)
    · revert t; decide
  · split at h
    · revert t; decide
    · split at h
      · revert t; decide
      · split at h <;> (revert t; decide)
  · split at h
    · revert t; decide
    · rw [List.mem_append] at h
      rcases h with h | h
      · split at h <;> (revert t; decide)
      · revert t; decide
  · split at h <;> (revert t; decide)

theorem policy_flags_no_B (b : Build) (env : Env) (cl f a m : Bool) :
    "-B" ∉ policy_flags b env cl f a m :=
  fun h => absurd (policy_flags_subset b env cl f a m _ h) (by decide)

theorem pass_through_no_bare_B (args : List String) : "-B" ∉ pass_through args :=
  fun h => absurd (kept_from_no_B false args _ h) (by decide)

/-- C4: when `edit_params` does not abort, no pass-through token of the output
begins with `-B`, and the token `-B` occurs exactly once in the output, right
before the assembler directory, provided neither the compiler binary nor the
directory is itself `-B`. -/
theorem C4_search_path_once (b : Build) (hv : b.CLANG_ENV_VAR ∉ consumed_vars)
    (argv0 : String) (args : List String) (env : Env) (dir : String) (quiet : Bool)
    (hn : args.length + 1 ≤ ARGC_MAX)
    (hok : aborted (run b argv0 args env dir quiet) = false) :
    vector_of (run b argv0 args env dir quiet) =
        .ok ((compiler_binary b (base_name argv0) env).toList ++ pass_through args ++
          "-B" :: dir :: policy_flags b env (clang_family (base_name argv0))
            (fortify_seen args) (sanitizer_seen args)
            (b.freebsd_x86_64 && m32_seen args)) ∧
      (∀ t ∈ pass_through args, strncmp_eq t "-B" 2 = false) ∧
      (compiler_binary b (base_name argv0) env ≠ some "-B" → dir ≠ "-B" →
        ((compiler_binary b (base_name argv0) env).toList ++ pass_through args ++
          "-B" :: dir :: policy_flags b env (clang_family (base_name argv0))
            (fortify_seen args) (sanitizer_seen args)
            (b.freebsd_x86_64 && m32_seen args)).count "-B" = 1) := by
  obtain ⟨cc, hcc, _, hvec⟩ := run_returns b hv argv0 args env dir quiet hn hok
  refine ⟨?_, kept_from_no_B false args, ?_⟩
  · rw [hvec, hcc]
    simp [rewritten_vector, appended, Option.toList]
  · intro hc hd
    rw [hcc] at hc ⊢
    have h1 : cc ≠ "-B" := fun e => hc (by rw [e])
    have h2 := pass_through_no_bare_B args
    have h3 := policy_flags_no_B b env (clang_family (base_name argv0))
      (fortify_seen args) (sanitizer_seen args) (b.freebsd_x86_64 && m32_seen args)
    simp only [Option.toList, List.count_append, List.count_cons, List.count_nil,
      List.count_eq_zero_of_not_mem h2, List.count_eq_zero_of_not_mem h3]
    simp [h1, hd]

/-- Witness of C4: three spellings of the search-path flag are all dropped. -/
theorem C4_search_path_once_witness :
    vector_of (run linux "afl-gcc" ["-B/x", "-c", "-B", "y", "a.c", "-B"]
        [("AFL_DONT_OPTIMIZE", "1")] "/usr/lib/afl" true) =
        .ok ["gcc", "-c", "a.c", "-B", "/usr/lib/afl"] ∧
      (∀ t ∈ pass_through ["-B/x", "-c", "-B", "y", "a.c", "-B"],
        strncmp_eq t "-B" 2 = false) ∧
      (compiler_binary linux (base_name "afl-gcc") [("AFL_DONT_OPTIMIZE", "1")] ≠
          some "-B" → "/usr/lib/afl" ≠ "-B" →
        ["gcc", "-c", "a.c", "-B", "/usr/lib/afl"].count "-B" = 1) :=
  C4_search_path_once linux (by decide) "afl-gcc"
    ["-B/x", "-c", "-B", "y", "a.c", "-B"] [("AFL_DONT_OPTIMIZE", "1")]
    "/usr/lib/afl" true (by decide) (by decide!)

/-! ### Sanitizers and hardening -/

theorem env_of_rewritten (b : Build) (argv0 : String) (args : List String) (env : Env)
    (dir : String) (quiet : Bool) :
    env_of (rewritten b argv0 args env dir quiet) =
      (rewritten_args b argv0 args env dir).map (fun _ =>
        env_final (env_selected b (base_name argv0) env) (sanitizer_seen args)) := by
  unfold env_of rewritten rewritten_args
  cases compiler_binary b (base_name argv0) (env_selected b (base_name argv0) env) with
  | none => rfl
  | some cc =>
    cases policy_conflict (env_selected b (base_name argv0) env) (sanitizer_seen args) with
    | some e => rfl
    | none => rfl

theorem is_set_env_selected (b : Build) (name : String) (env : Env) (k : String)
    (h : is_set env k = true) : (getenv (env_selected b name env) k).isSome = true := by
  unfold env_selected
  split
  · exact getenv_setenv_isSome env _ _ k h
  · exact h

theorem aborted_of_conflict (b : Build) (argv0 : String) (args : List String) (env : Env)
    (dir : String) (quiet : Bool) (hn : args.length + 1 ≤ ARGC_MAX) (e : Failure)
    (h : policy_conflict (env_selected b (base_name argv0) env) (sanitizer_seen args) =
      some e) :
    aborted (run b argv0 args env dir quiet) = true ∧
      returned (run b argv0 args env dir quiet) = false := by
  obtain ⟨l, m, he⟩ := policy_conflict_fatal _ _ e h
  rw [aborted_eq, returned_eq, run_vector b argv0 args env dir quiet hn]
  unfold rewritten_args
  cases compiler_binary b (base_name argv0) (env_selected b (base_name argv0) env) with
  | none => exact ⟨rfl, rfl⟩
  | some cc =>
    rw [h, he]
    exact ⟨rfl, rfl⟩

/-- C6 as stated fails: with `-fsanitize=address` passed through, the run
returns although `AFL_USE_ASAN` and `AFL_USE_MSAN` are both set. -/
theorem C6_counterexample :
    is_set [("AFL_USE_ASAN", "1"), ("AFL_USE_MSAN", "1")] "AFL_USE_ASAN" = true ∧
      is_set [("AFL_USE_ASAN", "1"), ("AFL_USE_MSAN", "1")] "AFL_USE_MSAN" = true ∧
      returned (run linux "afl-gcc" ["-fsanitize=address", "a.c"]
        [("AFL_USE_ASAN", "1"), ("AFL_USE_MSAN", "1")] "/usr/lib/afl" true) = true := by
  decide!

/-- C6, amended: on every build, with `AFL_USE_ASAN` and `AFL_USE_MSAN` both
set and no sanitizer flag among the pass-through tokens, `edit_params` ends in
a fatal error and returns no vector. -/
theorem C6_asan_msan_abort (b : Build) (argv0 : String) (args : List String) (env : Env)
    (dir : String) (quiet : Bool) (hn : args.length + 1 ≤ ARGC_MAX)
    (hA : is_set env "AFL_USE_ASAN" = true) (hM : is_set env "AFL_USE_MSAN" = true)
    (hs : sanitizer_seen args = false) :
    aborted (run b argv0 args env dir quiet) = true ∧
      returned (run b argv0 args env dir quiet) = false := by
  have h1 := is_set_env_selected b (base_name argv0) env _ hA
  have h2 := is_set_env_selected b (base_name argv0) env _ hM
  refine aborted_of_conflict b argv0 args env dir quiet hn
    (.fatal 246 "ASAN and MSAN are mutually exclusive") ?_
  simp [policy_conflict, hs, h1, h2]

/-- Witness of C6, amended. -/
theorem C6_asan_msan_abort_witness :
    aborted (run linux "afl-clang" ["-O2", "a.c"]
        [("AFL_USE_ASAN", "1"), ("AFL_USE_MSAN", "1")] "/usr/lib/afl" true) = true ∧
      returned (run linux "afl-clang" ["-O2", "a.c"]
        [("AFL_USE_ASAN", "1"), ("AFL_USE_MSAN", "1")] "/usr/lib/afl" true) = false :=
  C6_asan_msan_abort linux "afl-clang" ["-O2", "a.c"]
    [("AFL_USE_ASAN", "1"), ("AFL_USE_MSAN", "1")] "/usr/lib/afl" true (by decide)
    (by decide) (by decide) (by decide)

/-- C7 as stated fails: with `-fsanitize=memory` passed through, the run
returns although `AFL_HARDEN` and `AFL_USE_MSAN` are both set. -/
theorem C7_counterexample :
    is_set [("AFL_HARDEN", "1"), ("AFL_USE_MSAN", "1")] "AFL_HARDEN" = true ∧
      is_set [("AFL_HARDEN", "1"), ("AFL_USE_MSAN", "1")] "AFL_USE_MSAN" = true ∧
      returned (run linux "afl-gcc" ["-fsanitize=memory", "a.c"]
        [("AFL_HARDEN", "1"), ("AFL_USE_MSAN", "1")] "/usr/lib/afl" true) = true := by
  decide!

/-- C7, amended: on every build, with `AFL_HARDEN` set together with
`AFL_USE_ASAN` or `AFL_USE_MSAN` and no sanitizer flag among the pass-through
tokens, `edit_params` ends in a fatal error and returns no vector. -/
theorem C7_harden_sanitizer_abort (b : Build) (argv0 : String) (args : List String)
    (env : Env) (dir : String) (quiet : Bool) (hn : args.length + 1 ≤ ARGC_MAX)
    (hH : is_set env "AFL_HARDEN" = true)
    (hS : is_set env "AFL_USE_ASAN" = true ∨ is_set env "AFL_USE_MSAN" = true)
    (hs : sanitizer_seen args = false) :
    aborted (run b argv0 args env dir quiet) = true ∧
      returned (run b argv0 args env dir quiet) = false := by
  have h1 := is_set_env_selected b (base_name argv0) env _ hH
  cases hp : policy_conflict (env_selected b (base_name argv0) env) (sanitizer_seen args) with
  | some e => exact aborted_of_conflict b argv0 args env dir quiet hn e hp
  | none =>
    exfalso
    cases hS with
    | inl hA =>
      have h2 := is_set_env_selected b (base_name argv0) env _ hA
      simp only [policy_conflict, hs, h1, h2, Bool.false_eq_true, if_false, if_true] at hp
      split at hp <;> cases hp
    | inr hM =>
      have h2 := is_set_env_selected b (base_name argv0) env _ hM
      simp only [policy_conflict, hs, h1, h2, Bool.false_eq_true, if_false, if_true] at hp
      split at hp <;> cases hp

/-- Witness of C7, amended. -/
theorem C7_harden_sanitizer_abort_witness :
    aborted (run linux "afl-g++" ["a.cc"]
        [("AFL_HARDEN", "1"), ("AFL_USE_ASAN", "1")] "/usr/lib/afl" true) = true ∧
      returned (run linux "afl-g++" ["a.cc"]
        [("AFL_HARDEN", "1"), ("AFL_USE_ASAN", "1")] "/usr/lib/afl" true) = false :=
  C7_harden_sanitizer_abort linux "afl-g++" ["a.cc"]
    [("AFL_HARDEN", "1"), ("AFL_USE_ASAN", "1")] "/usr/lib/afl" true (by decide)
    (by decide) (Or.inl (by decide)) (by decide)

/-! ### Optimisation flags, compiler choice and the worked example -/

theorem no_optimize_flags (b : Build) (env : Env) (cl f a m : Bool)
    (h : is_set env "AFL_DONT_OPTIMIZE" = true) :
    ∀ t ∈ policy_flags b env cl f a m,
      t ∉ ["-g", "-O3", "-funroll-loops", "-D__AFL_COMPILER=1",
        "-DFUZZING_BUILD_MODE_UNSAFE_FOR_PRODUCTION=1"] := by
  intro t ht
  unfold is_set at h
  simp only [policy_flags, clang_flags, harden_flags, sanitizer_flags, optimize_flags,
    no_builtin_flags, List.mem_append, h, if_true, List.not_mem_nil, or_false,
    false_or] at ht
  rcases ht with h | h | h | h
  · split at h <;> (revert t; decide)
  · split at h
    · split at h <;> (revert t; decide)
    · revert t; decide
  · split at h
    · revert t; decide
    · split at h
      · revert t; decide
      · split at h <;> (revert t; decide)
  · split at h <;> (revert t; decide)

/-- C8 as stated fails: a `-O3` of the user is passed through although
`AFL_DONT_OPTIMIZE` is set. -/
theorem C8_counterexample :
    is_set [("AFL_DONT_OPTIMIZE", "1")] "AFL_DONT_OPTIMIZE" = true ∧
      vector_of (run linux "afl-gcc" ["-O3", "a.c"] [("AFL_DONT_OPTIMIZE", "1")]
        "/usr/lib/afl" true) = .ok ["gcc", "-O3", "a.c", "-B", "/usr/lib/afl"] ∧
      "-O3" ∈ ["gcc", "-O3", "a.c", "-B", "/usr/lib/afl"] := by
  decide!

/-- C8, amended: with `AFL_DONT_OPTIMIZE` set, when `edit_params` does not
abort, none of the flags it appends after the `-B` pair is `-g`, `-O3`,
`-funroll-loops` or one of the two marker definitions. -/
theorem C8_no_optimize (b : Build) (hv : b.CLANG_ENV_VAR ∉ consumed_vars)
    (argv0 : String) (args : List String) (env : Env) (dir : String) (quiet : Bool)
    (hn : args.length + 1 ≤ ARGC_MAX)
    (hO : is_set env "AFL_DONT_OPTIMIZE" = true)
    (hok : aborted (run b argv0 args env dir quiet) = false) :
    vector_of (run b argv0 args env dir quiet) =
        .ok ((compiler_binary b (base_name argv0) env).toList ++ pass_through args ++
          "-B" :: dir :: policy_flags b env (clang_family (base_name argv0))
            (fortify_seen args) (sanitizer_seen args)
            (b.freebsd_x86_64 && m32_seen args)) ∧
      ∀ t ∈ policy_flags b env (clang_family (base_name argv0))
          (fortify_seen args) (sanitizer_seen args) (b.freebsd_x86_64 && m32_seen args),
        t ∉ ["-g", "-O3", "-funroll-loops", "-D__AFL_COMPILER=1",
          "-DFUZZING_BUILD_MODE_UNSAFE_FOR_PRODUCTION=1"] := by
  obtain ⟨cc, hcc, _, hvec⟩ := run_returns b hv argv0 args env dir quiet hn hok
  refine ⟨?_, no_optimize_flags b env _ _ _ _ hO⟩
  rw [hvec, hcc]
  simp [rewritten_vector, appended, Option.toList]

/-- Witness of C8, amended. -/
theorem C8_no_optimize_witness :
    vector_of (run linux "afl-clang" ["a.c"]
        [("AFL_DONT_OPTIMIZE", ""), ("AFL_USE_ASAN", "1")] "/usr/lib/afl" true) =
        .ok ["clang", "a.c", "-B", "/usr/lib/afl", "-no-integrated-as",
          "-U_FORTIFY_SOURCE", "-fsanitize=address"] ∧
      ∀ t ∈ ["-no-integrated-as", "-U_FORTIFY_SOURCE", "-fsanitize=address"],
        t ∉ ["-g", "-O3", "-funroll-loops", "-D__AFL_COMPILER=1",
          "-DFUZZING_BUILD_MODE_UNSAFE_FOR_PRODUCTION=1"] :=
  C8_no_optimize linux (by decide) "afl-clang" ["a.c"]
    [("AFL_DONT_OPTIMIZE", ""), ("AFL_USE_ASAN", "1")] "/usr/lib/afl" true (by decide)
    (by decide) (by decide!)

theorem strrchrAux_none (c : Char) (ys : List Char) (h : c ∉ ys) :
    strrchrAux c ys = none := by
  induction ys with
  | nil => rfl
  | cons y ys ih =>
    have h1 : ¬ y = c := fun e => h (e ▸ List.mem_cons_self _ _)
    have h2 : c ∉ ys := fun m => h (List.mem_cons_of_mem _ m)
    simp [strrchrAux, ih h2, h1]

theorem strrchrAux_last (c : Char) (xs ys : List Char) (h : c ∉ ys) :
    strrchrAux c (xs ++ c :: ys) = some xs.length := by
  induction xs with
  | nil => simp [strrchrAux, strrchrAux_none c ys h]
  | cons x xs ih => simp [strrchrAux, ih]

theorem base_name_of_path (d n : String) (h : '/' ∉ n.data) :
    base_name (d ++ "/" ++ n) = n := by
  have e : (d ++ "/" ++ n).data = d.data ++ '/' :: n.data := by
    simp [String.data_append]
  have h2 : List.drop (d.data.length + 1) (d.data ++ '/' :: n.data) = n.data := by
    rw [← List.drop_drop, List.drop_left]
    rfl
  unfold base_name strrchr
  rw [e, strrchrAux_last '/' d.data n.data h]
  show (⟨List.drop (d.data.length + 1) (d.data ++ '/' :: n.data)⟩ : String) = n
  rw [h2]

theorem base_name_of_plain (n : String) (h : '/' ∉ n.data) : base_name n = n := by
  unfold base_name strrchr
  rw [strrchrAux_none '/' n.data h]

theorem head_rewritten_vector (b : Build) (name : String) (args : List String)
    (env : Env) (dir cc : String) :
    (rewritten_vector b name args env dir cc).head? = some cc := rfl

/-- C9 as stated fails: `my-afl-g++` and `my-afl-clang++` end in the aliases,
yet with no override set the compiler chosen for them is `gcc`. -/
theorem C9_counterexample :
    "my-afl-g++" = "my-" ++ "afl-g++" ∧
      (vector_of (run linux "my-afl-g++" ["a.cc"] [] "/usr/lib/afl" true)).map List.head? =
        .ok (some "gcc") ∧
      "my-afl-clang++" = "my-" ++ "afl-clang++" ∧
      (vector_of (run linux "my-afl-clang++" ["a.cc"] [] "/usr/lib/afl" true)).map
        List.head? = .ok (some "gcc") := by
  decide!

/-- C9, amended: with `AFL_CC`, `AFL_CXX` and `AFL_GCJ` unset, when the base
name of `argv[0]` is `afl-g++` slot 0 of the output is `g++`, and when it is
`afl-clang++` slot 0 is `clang++`. -/
theorem C9_cxx_default (b : Build) (ha : b.apple = false)
    (hv : b.CLANG_ENV_VAR ∉ consumed_vars)
    (argv0 : String) (args : List String) (env : Env) (dir : String) (quiet : Bool)
    (hn : args.length + 1 ≤ ARGC_MAX)
    (_hcc : getenv env "AFL_CC" = none) (hcxx : getenv env "AFL_CXX" = none)
    (_hgcj : getenv env "AFL_GCJ" = none)
    (hok : aborted (run b argv0 args env dir quiet) = false) :
    (base_name argv0 = "afl-g++" →
        (vector_of (run b argv0 args env dir quiet)).map List.head? = .ok (some "g++")) ∧
      (base_name argv0 = "afl-clang++" →
        (vector_of (run b argv0 args env dir quiet)).map List.head? =
          .ok (some "clang++")) := by
  obtain ⟨cc, hcc, _, hvec⟩ := run_not_aborted b ha hv argv0 args env dir quiet hn hok
  rw [hvec]
  simp only [Except.map, head_rewritten_vector]
  constructor
  · intro hb
    have e : compiler_binary b "afl-g++" env = some "g++" := by
      have c1 : clang_family "afl-g++" = false := by decide
      unfold compiler_binary
      rw [ha, hcxx, c1]
      simp
    rw [hb, e] at hcc
    rw [← Option.some.inj hcc]
  · intro hb
    have e : compiler_binary b "afl-clang++" env = some "clang++" := by
      have c1 : clang_family "afl-clang++" = true := by decide
      unfold compiler_binary
      rw [hcxx, c1]
      simp
    rw [hb, e] at hcc
    rw [← Option.some.inj hcc]

/-- Witness of C9, amended: the alias behind a directory. -/
theorem C9_cxx_default_witness :
    (base_name "/opt/afl/afl-g++" = "afl-g++" →
        (vector_of (run linux "/opt/afl/afl-g++" ["a.cc"] [("AFL_QUIET", "1")]
          "/opt/afl" true)).map List.head? = .ok (some "g++")) ∧
      (base_name "/opt/afl/afl-g++" = "afl-clang++" →
        (vector_of (run linux "/opt/afl/afl-g++" ["a.cc"] [("AFL_QUIET", "1")]
          "/opt/afl" true)).map List.head? = .ok (some "clang++")) :=
  C9_cxx_default linux rfl (by decide) "/opt/afl/afl-g++" ["a.cc"] [("AFL_QUIET", "1")]
    "/opt/afl" true (by decide) (by decide) (by decide) (by decide) (by decide!)

/-- C10: the worked example. For `argv = [d/afl-g++, -O2, foo.cpp]`, none of
the consumed variables set and assembler directory `dir`, on a build that is
neither for Apple nor for FreeBSD, the output is `g++ -O2 foo.cpp -B dir -g -O3
-funroll-loops` and the two markers, and the slot after them is `NULL`. -/
theorem C10_worked_example (b : Build) (ha : b.apple = false)
    (hf : b.freebsd_x86_64 = false) (d : String) (env : Env) (dir : String)
    (quiet : Bool) (henv : ∀ k ∈ consumed_vars, getenv env k = none) :
    vector_of (run b (d ++ "/afl-g++") ["-O2", "foo.cpp"] env dir quiet) =
        .ok ["g++", "-O2", "foo.cpp", "-B", dir, "-g", "-O3", "-funroll-loops",
          "-D__AFL_COMPILER=1", "-DFUZZING_BUILD_MODE_UNSAFE_FOR_PRODUCTION=1"] ∧
      (run b (d ++ "/afl-g++") ["-O2", "foo.cpp"] env dir quiet).map
          (fun s => s.cc_params.take 11) =
        .ok [some "g++", some "-O2", some "foo.cpp", some "-B", some dir, some "-g",
          some "-O3", some "-funroll-loops", some "-D__AFL_COMPILER=1",
          some "-DFUZZING_BUILD_MODE_UNSAFE_FOR_PRODUCTION=1", none] := by
  have hb : base_name (d ++ "/afl-g++") = "afl-g++" :=
    (String.append_assoc d "/" "afl-g++") ▸ base_name_of_path d "afl-g++" (by decide)
  have hcl : clang_family "afl-g++" = false := by decide
  have hsel : env_selected b "afl-g++" env = env := by
    unfold env_selected
    rw [hcl]
    rfl
  have hcc : compiler_binary b "afl-g++" env = some "g++" := by
    unfold compiler_binary
    rw [ha, henv "AFL_CXX" (by decide), hcl]
    simp
  have hs : sanitizer_seen ["-O2", "foo.cpp"] = false := by decide
  have hfo : fortify_seen ["-O2", "foo.cpp"] = false := by decide
  have hpt : pass_through ["-O2", "foo.cpp"] = ["-O2", "foo.cpp"] := by decide
  have hp : policy_conflict env false = none := by
    unfold policy_conflict
    rw [henv "AFL_USE_ASAN" (by decide), henv "AFL_USE_MSAN" (by decide)]
    rfl
  have hvec : rewritten_vector b "afl-g++" ["-O2", "foo.cpp"] env dir "g++" =
      ["g++", "-O2", "foo.cpp", "-B", dir, "-g", "-O3", "-funroll-loops",
        "-D__AFL_COMPILER=1", "-DFUZZING_BUILD_MODE_UNSAFE_FOR_PRODUCTION=1"] := by
    unfold rewritten_vector appended policy_flags clang_flags harden_flags
      sanitizer_flags optimize_flags no_builtin_flags
    rw [hpt, hs, hfo, hcl, hf, henv "AFL_HARDEN" (by decide),
      henv "AFL_USE_ASAN" (by decide), henv "AFL_USE_MSAN" (by decide),
      henv "AFL_DONT_OPTIMIZE" (by decide), henv "AFL_NO_BUILTIN" (by decide)]
    rfl
  have hrun : run b (d ++ "/afl-g++") ["-O2", "foo.cpp"] env dir quiet =
      rewritten b (d ++ "/afl-g++") ["-O2", "foo.cpp"] env dir quiet :=
    run_eq b _ _ env dir quiet (by decide)
  have hrw : rewritten_args b (d ++ "/afl-g++") ["-O2", "foo.cpp"] env dir =
      .ok ["g++", "-O2", "foo.cpp", "-B", dir, "-g", "-O3", "-funroll-loops",
        "-D__AFL_COMPILER=1", "-DFUZZING_BUILD_MODE_UNSAFE_FOR_PRODUCTION=1"] := by
    unfold rewritten_args
    rw [hb, hsel, hcc, hs, hp]
    dsimp only
    rw [hvec]
  refine ⟨?_, ?_⟩
  · rw [hrun, vector_of_rewritten, hrw]
  · rw [hrun]
    unfold rewritten
    rw [hb, hsel, hcc, hs, hp]
    dsimp only
    rw [hvec]
    rfl

/-- Witness of C10: the example run from `/usr/local/bin`. -/
theorem C10_worked_example_witness :
    vector_of (run linux ("/usr/local/bin" ++ "/afl-g++") ["-O2", "foo.cpp"]
        [("HOME", "/root")] "/usr/local/lib/afl" false) =
        .ok ["g++", "-O2", "foo.cpp", "-B", "/usr/local/lib/afl", "-g", "-O3",
          "-funroll-loops", "-D__AFL_COMPILER=1",
          "-DFUZZING_BUILD_MODE_UNSAFE_FOR_PRODUCTION=1"] ∧
      (run linux ("/usr/local/bin" ++ "/afl-g++") ["-O2", "foo.cpp"]
          [("HOME", "/root")] "/usr/local/lib/afl" false).map
          (fun s => s.cc_params.take 11) =
        .ok [some "g++", some "-O2", some "foo.cpp", some "-B",
          some "/usr/local/lib/afl", some "-g", some "-O3", some "-funroll-loops",
          some "-D__AFL_COMPILER=1", some "-DFUZZING_BUILD_MODE_UNSAFE_FOR_PRODUCTION=1",
          none] :=
  C10_worked_example linux rfl rfl "/usr/local/bin" [("HOME", "/root")]
    "/usr/local/lib/afl" false (by decide)

/-! ## The claims about `find_as` -/

theorem find_as_fallback_path (b : Build) (access_x : String → Bool) (d n : String)
    (s : State) (h : '/' ∉ n.data) :
    find_as_fallback b access_x (d ++ "/" ++ n) s =
      if access_x (d ++ "/afl-as") then .ok { s with as_path := some d }
      else if access_x (b.AFL_PATH ++ "/as") then .ok { s with as_path := some b.AFL_PATH }
      else .error (.fatal 107
        "Unable to find AFL wrapper binary for 'as'. Please set AFL_PATH") := by
  have e : (d ++ "/" ++ n).data = d.data ++ '/' :: n.data := by
    simp [String.data_append]
  have h2 : (⟨List.take d.data.length (d.data ++ '/' :: n.data)⟩ : String) = d := by
    rw [List.take_left]
  unfold find_as_fallback strrchr
  rw [e, strrchrAux_last '/' d.data n.data h]
  simp only [h2]

theorem find_as_fallback_plain (b : Build) (access_x : String → Bool) (argv0 : String)
    (s : State) (h : '/' ∉ argv0.data) :
    find_as_fallback b access_x argv0 s =
      if access_x (b.AFL_PATH ++ "/as") then .ok { s with as_path := some b.AFL_PATH }
      else .error (.fatal 107
        "Unable to find AFL wrapper binary for 'as'. Please set AFL_PATH") := by
  unfold find_as_fallback strrchr
  rw [strrchrAux_none '/' argv0.data h]

theorem find_as_fallback_probed (b : Build) (access_x : String → Bool) (argv0 : String)
    (s t : State) (h : find_as_fallback b access_x argv0 s = .ok t) :
    ∃ dd, t.as_path = some dd ∧
      (access_x (dd ++ "/as") = true ∨ access_x (dd ++ "/afl-as") = true) := by
  unfold find_as_fallback at h
  by_cases h2 : access_x (b.AFL_PATH ++ "/as") = true
  · cases hs : strrchr argv0 '/' with
    | none =>
      rw [hs] at h
      simp only [h2, if_true] at h
      exact ⟨_, (Except.ok.inj h) ▸ rfl, Or.inl h2⟩
    | some i =>
      rw [hs] at h
      by_cases h1 : access_x ((⟨argv0.data.take i⟩ : String) ++ "/afl-as") = true
      · simp only [h1, if_true] at h
        exact ⟨_, (Except.ok.inj h) ▸ rfl, Or.inr h1⟩
      · simp only [h1, h2, if_true, if_false] at h
        exact ⟨_, (Except.ok.inj h) ▸ rfl, Or.inl h2⟩
  · cases hs : strrchr argv0 '/' with
    | none =>
      rw [hs] at h
      simp only [h2, if_false] at h
      cases h
    | some i =>
      rw [hs] at h
      by_cases h1 : access_x ((⟨argv0.data.take i⟩ : String) ++ "/afl-as") = true
      · simp only [h1, if_true] at h
        exact ⟨_, (Except.ok.inj h) ▸ rfl, Or.inr h1⟩
      · simp only [h1, h2, if_false] at h
        cases h

/-- C11: with `access_x` the execute-permission probe, `find_as` takes the
first candidate whose probe succeeds, in the order `AFL_PATH`, the directory
of `argv[0]`, the compiled-in directory, and is fatal exactly when none does;
a set `AFL_PATH` whose probe fails falls through. Every directory it returns
passed a probe. -/
theorem C11_find_as (b : Build) (access_x : String → Bool) (argv0 : String) (s : State) :
    (∀ p, getenv s.env "AFL_PATH" = some p → access_x (p ++ "/as") = true →
        find_as b access_x argv0 s = .ok { s with as_path := some p }) ∧
      ((getenv s.env "AFL_PATH" = none ∨
          ∃ p, getenv s.env "AFL_PATH" = some p ∧ access_x (p ++ "/as") = false) →
        (∀ d n, argv0 = d ++ "/" ++ n → '/' ∉ n.data →
          (access_x (d ++ "/afl-as") = true →
            find_as b access_x argv0 s = .ok { s with as_path := some d }) ∧
          (access_x (d ++ "/afl-as") = false → access_x (b.AFL_PATH ++ "/as") = true →
            find_as b access_x argv0 s = .ok { s with as_path := some b.AFL_PATH }) ∧
          (access_x (d ++ "/afl-as") = false → access_x (b.AFL_PATH ++ "/as") = false →
            find_as b access_x argv0 s = .error (.fatal 107
              "Unable to find AFL wrapper binary for 'as'. Please set AFL_PATH"))) ∧
        ('/' ∉ argv0.data →
          (access_x (b.AFL_PATH ++ "/as") = true →
            find_as b access_x argv0 s = .ok { s with as_path := some b.AFL_PATH }) ∧
          (access_x (b.AFL_PATH ++ "/as") = false →
            find_as b access_x argv0 s = .error (.fatal 107
              "Unable to find AFL wrapper binary for 'as'. Please set AFL_PATH")))) ∧
      (∀ t, find_as b access_x argv0 s = .ok t →
        ∃ dd, t.as_path = some dd ∧
          (access_x (dd ++ "/as") = true ∨ access_x (dd ++ "/afl-as") = true)) := by
  refine ⟨?_, ?_, ?_⟩
  · intro p hp hx
    unfold find_as
    rw [hp]
    simp only [hx, if_true]
  · intro hov
    have hfall : find_as b access_x argv0 s = find_as_fallback b access_x argv0 s := by
      unfold find_as
      cases hov with
      | inl h => rw [h]
      | inr h =>
        obtain ⟨p, hp, hx⟩ := h
        rw [hp]
        simp only [hx, Bool.false_eq_true, if_false]
    rw [hfall]
    refine ⟨?_, ?_⟩
    · intro d n he hn
      rw [he, find_as_fallback_path b access_x d n s hn]
      refine ⟨?_, ?_, ?_⟩
      · intro h1
        simp only [h1, if_true]
      · intro h1 h2
        simp only [h1, h2, Bool.false_eq_true, if_false, if_true]
      · intro h1 h2
        simp only [h1, h2, Bool.false_eq_true, if_false]
    · intro hn
      rw [find_as_fallback_plain b access_x argv0 s hn]
      refine ⟨?_, ?_⟩
      · intro h2
        simp only [h2, if_true]
      · intro h2
        simp only [h2, Bool.false_eq_true, if_false]
  · intro t ht
    unfold find_as at ht
    split at ht
    · split at ht
      · cases ht
        exact ⟨_, rfl, Or.inl (by assumption)⟩
      · exact find_as_fallback_probed b access_x argv0 s t ht
    · exact find_as_fallback_probed b access_x argv0 s t ht

/-- Witness of C11: `AFL_PATH` is set but holds no `as`, the directory of
`argv[0]` holds `afl-as`. -/
theorem C11_find_as_witness :
    find_as linux (fun p => p == "/opt/afl/afl-as") "/opt/afl/afl-gcc"
        (State.init [("AFL_PATH", "/nowhere")]) =
      .ok { State.init [("AFL_PATH", "/nowhere")] with as_path := some "/opt/afl" } :=
  ((C11_find_as linux (fun p => p == "/opt/afl/afl-as") "/opt/afl/afl-gcc"
      (State.init [("AFL_PATH", "/nowhere")])).2.1
    (Or.inr ⟨"/nowhere", by decide, by decide⟩)).1 "/opt/afl" "afl-gcc" (by decide)
    (by decide) |>.1 (by decide)

/-! ## The buffer and the loop -/

theorem buf_get_lt (vec : List String) (n i : Nat) (h : i < vec.length) :
    ∃ x, (buf vec n)[i]? = some (some x) := by
  refine ⟨vec.get ⟨i, h⟩, ?_⟩
  unfold buf
  rw [List.getElem?_append_left (by simpa using h)]
  simp [h]

theorem buf_get_end (vec : List String) (n : Nat) (h : vec.length < n) :
    (buf vec n)[vec.length]? = some none := by
  rw [buf_split vec n h]
  have e : (List.map some vec).length ≤ vec.length := by simp
  rw [List.getElem?_append_right e]
  simp

theorem rewritten_ok (b : Build) (argv0 : String) (args : List String) (env : Env)
    (dir : String) (quiet : Bool) (r : State)
    (h : rewritten b argv0 args env dir quiet = .ok r) :
    ∃ vec, r.cc_params = buf vec (args.length + 129) ∧ r.cc_par_cnt = vec.length ∧
      vec.length ≤ args.length + 18 := by
  unfold rewritten at h
  cases hc : compiler_binary b (base_name argv0)
      (env_selected b (base_name argv0) env) with
  | none =>
    rw [hc] at h
    cases h
  | some cc =>
    rw [hc] at h
    cases hp : policy_conflict (env_selected b (base_name argv0) env)
        (sanitizer_seen args) with
    | some e =>
      rw [hp] at h
      cases h
    | none =>
      rw [hp] at h
      have hl := rewritten_vector_length b (base_name argv0) args
        (env_selected b (base_name argv0) env) dir cc hp
      have hr := Except.ok.inj h
      exact ⟨_, by rw [← hr], by rw [← hr], hl⟩

/-- C12: on every build, Apple included, whenever `edit_params` returns, every
slot of `cc_params` below `cc_par_cnt` holds a string and the slot at
`cc_par_cnt` is `NULL`; where an Apple build finds no override the run is
fatal instead of leaving slot 0 `NULL`. -/
theorem C12_sentinel (b : Build) (argv0 : String) (args : List String) (env : Env)
    (dir : String) (quiet : Bool) (hn : args.length + 1 ≤ ARGC_MAX) :
    (∀ r, run b argv0 args env dir quiet = .ok r → well_terminated r) ∧
      (compiler_binary b (base_name argv0) (env_selected b (base_name argv0) env) = none →
        run b argv0 args env dir quiet =
          .error (.fatal 163 "AFL_CC or AFL_CXX required on MacOS X")) := by
  rw [run_eq b argv0 args env dir quiet hn]
  constructor
  · intro r hr
    obtain ⟨vec, h1, h2, h3⟩ := rewritten_ok b argv0 args env dir quiet r hr
    unfold well_terminated
    rw [h1, h2]
    exact ⟨fun i hi => buf_get_lt vec _ i hi, buf_get_end vec _ (by omega)⟩
  · intro hc
    unfold rewritten
    rw [hc]

/-- Witness of C12: a run that returns four tokens, and an Apple build
without an override. -/
theorem C12_sentinel_witness :
    well_terminated
        { as_path := some "/usr/lib/afl"
          cc_params := buf ["gcc", "a.c", "-B", "/usr/lib/afl"] 130
          cc_par_cnt := 4, be_quiet := true, clang_mode := false, fortify_set := false
          asan_set := false, m32_set := false, env := [("AFL_DONT_OPTIMIZE", "1")]
          warnings := [], argv_off := 1, visited := [1], counters := [2, 1] } ∧
      run { linux with apple := true } "afl-gcc" ["a.c"] [] "/usr/lib/afl" true =
        .error (.fatal 163 "AFL_CC or AFL_CXX required on MacOS X") :=
  ⟨(C12_sentinel linux "afl-gcc" ["a.c"] [("AFL_DONT_OPTIMIZE", "1")] "/usr/lib/afl" true
      (by decide)).1 _ (by decide!),
    (C12_sentinel { linux with apple := true } "afl-gcc" ["a.c"] [] "/usr/lib/afl" true
      (by decide)).2 (by decide)⟩

/-! ### Hardening -/

theorem kept_from_subset (sk : Bool) (l : List String) :
    ∀ t ∈ kept_from sk l, t ∈ l := by
  induction l generalizing sk with
  | nil => simp [kept_from]
  | cons cur rest ih =>
    intro t ht
    cases sk
    · simp only [kept_from] at ht
      split at ht
      · exact List.mem_cons_of_mem _ (ih _ t ht)
      · split at ht
        · exact List.mem_cons_of_mem _ (ih _ t ht)
        · cases ht with
          | head => exact List.mem_cons_self _ _
          | tail _ ht => exact List.mem_cons_of_mem _ (ih false t ht)
    · simp only [kept_from] at ht
      exact List.mem_cons_of_mem _ (ih _ t ht)

theorem fortify_seen_of_mem (args : List String) (t : String)
    (ht : t ∈ pass_through args) (hs : has_fortify t = true) :
    fortify_seen args = true := by
  unfold fortify_seen
  exact List.any_eq_true.mpr ⟨t, ht, hs⟩

theorem fortify_seen_of_none (args : List String)
    (h : ∀ t ∈ args, has_fortify t = false) : fortify_seen args = false := by
  unfold fortify_seen pass_through
  cases hc : (kept_from false args).any has_fortify with
  | false => rfl
  | true =>
    obtain ⟨t, ht, hs⟩ := List.any_eq_true.mp hc
    rw [h t (kept_from_subset false args t ht)] at hs
    cases hs

theorem no_fortify_define_after (b : Build) (env : Env) (cl a m : Bool) :
    "-D_FORTIFY_SOURCE=2" ∉
      sanitizer_flags env a ++ (optimize_flags b env cl m ++ no_builtin_flags env) := by
  intro ht
  simp only [sanitizer_flags, optimize_flags, no_builtin_flags, List.mem_append] at ht
  rcases ht with h | h | h
  · split at h
    · revert h; decide
    · split at h
      · revert h; decide
      · split at h <;> (revert h; decide)
  · split at h
    · revert h; decide
    · rw [List.mem_append] at h
      rcases h with h | h
      · split at h <;> (revert h; decide)
      · revert h; decide
  · split at h <;> (revert h; decide)

/-- C13 as stated fails: a token with `FORTIFY_SOURCE` that follows a bare
`-B` is dropped unseen, so it is not in the output and `-D_FORTIFY_SOURCE=2`
is appended. -/
theorem C13_counterexample :
    "-D_FORTIFY_SOURCE=1" ∈ ["-B", "-D_FORTIFY_SOURCE=1"] ∧
      has_fortify "-D_FORTIFY_SOURCE=1" = true ∧
      vector_of (run linux "afl-gcc" ["-B", "-D_FORTIFY_SOURCE=1"]
        [("AFL_HARDEN", "1"), ("AFL_DONT_OPTIMIZE", "1")] "/usr/lib/afl" true) =
        .ok ["gcc", "-B", "/usr/lib/afl", "-fstack-protector-all",
          "-D_FORTIFY_SOURCE=2"] := by
  decide!

/-- C13, amended: with `AFL_HARDEN` set and no abort, `-fstack-protector-all`
is appended, followed directly by `-D_FORTIFY_SOURCE=2` unless a pass-through
token contains `FORTIFY_SOURCE`, and `-D_FORTIFY_SOURCE=2` is appended nowhere
else; a pass-through token that contains `FORTIFY_SOURCE` is in the output
and suppresses the definition; when no argument contains `FORTIFY_SOURCE` the
definition is not suppressed. -/
theorem C13_fortify (b : Build) (hv : b.CLANG_ENV_VAR ∉ consumed_vars)
    (argv0 : String) (args : List String) (env : Env) (dir : String) (quiet : Bool)
    (hn : args.length + 1 ≤ ARGC_MAX)
    (hH : is_set env "AFL_HARDEN" = true)
    (hok : aborted (run b argv0 args env dir quiet) = false) :
    vector_of (run b argv0 args env dir quiet) =
        .ok ((compiler_binary b (base_name argv0) env).toList ++ pass_through args ++
          "-B" :: dir :: (clang_flags (clang_family (base_name argv0)) ++
            "-fstack-protector-all" ::
              ((if fortify_seen args then [] else ["-D_FORTIFY_SOURCE=2"]) ++
                (sanitizer_flags env (sanitizer_seen args) ++
                  (optimize_flags b env (clang_family (base_name argv0))
                    (b.freebsd_x86_64 && m32_seen args) ++ no_builtin_flags env))))) ∧
      "-D_FORTIFY_SOURCE=2" ∉
        sanitizer_flags env (sanitizer_seen args) ++
          (optimize_flags b env (clang_family (base_name argv0))
            (b.freebsd_x86_64 && m32_seen args) ++ no_builtin_flags env) ∧
      (∀ t ∈ pass_through args, has_fortify t = true →
        fortify_seen args = true ∧
        (vector_of (run b argv0 args env dir quiet)).map (fun v => decide (t ∈ v)) =
          .ok true) ∧
      ((∀ t ∈ args, has_fortify t = false) → fortify_seen args = false) := by
  obtain ⟨cc, hcc, _, hvec⟩ := run_returns b hv argv0 args env dir quiet hn hok
  unfold is_set at hH
  refine ⟨?_, no_fortify_define_after b env _ _ _, ?_, fortify_seen_of_none args⟩
  · rw [hvec, hcc]
    cases hfs : fortify_seen args <;>
      simp [rewritten_vector, appended, policy_flags, harden_flags, hH, hfs,
        Option.toList]
  · intro t ht hs
    refine ⟨fortify_seen_of_mem args t ht hs, ?_⟩
    rw [hvec]
    simp [Except.map, rewritten_vector, ht]

/-- Witness of C13, amended: the user's own definition is kept and stands
alone. -/
theorem C13_fortify_witness :
    fortify_seen ["-D_FORTIFY_SOURCE=1", "a.c"] = true ∧
      (vector_of (run linux "afl-gcc" ["-D_FORTIFY_SOURCE=1", "a.c"]
          [("AFL_HARDEN", "1"), ("AFL_DONT_OPTIMIZE", "1")] "/usr/lib/afl" true)).map
        (fun v => decide ("-D_FORTIFY_SOURCE=1" ∈ v)) = .ok true :=
  (C13_fortify linux (by decide) "afl-gcc" ["-D_FORTIFY_SOURCE=1", "a.c"]
    [("AFL_HARDEN", "1"), ("AFL_DONT_OPTIMIZE", "1")] "/usr/lib/afl" true (by decide)
    (by decide) (by decide!)).2.2.1 "-D_FORTIFY_SOURCE=1" (by decide) (by decide)

/-! ### The value of the search-path flag -/

theorem kept_from_append (pre l : List String)
    (h : ∀ t ∈ pre, strncmp_eq t "-B" 2 = false) :
    kept_from false (pre ++ l) = kept_from false pre ++ kept_from false l := by
  induction pre with
  | nil => rfl
  | cons cur rest ih =>
    have hc : strncmp_eq cur "-B" 2 = false := h cur (List.mem_cons_self _ _)
    have hr := ih (fun t ht => h t (List.mem_cons_of_mem _ ht))
    have hB : ¬ strncmp_eq cur "-B" 2 = true := by simp [hc]
    by_cases hD : cur = "-integrated-as" ∨ cur = "-pipe"
    · rw [List.cons_append, kept_from_dropped cur _ hB hD, kept_from_dropped cur _ hB hD, hr]
    · rw [List.cons_append, kept_from_kept cur _ hB hD, kept_from_kept cur _ hB hD, hr]
      rfl

theorem attached_data (s : String) : ("-B" ++ s).data = '-' :: 'B' :: s.data := by
  simp [String.data_append]

theorem attached_starts (s : String) : strncmp_eq ("-B" ++ s) "-B" 2 = true := by
  unfold strncmp_eq
  rw [attached_data]
  simp [List.take]

theorem attached_not_bare (s : String) (h : s ≠ "") : ¬ nulAt ("-B" ++ s) 2 = true := by
  unfold nulAt
  rw [attached_data]
  have h2 : s.data ≠ [] := fun e => h (String.ext e)
  cases hd : s.data with
  | nil => exact absurd hd h2
  | cons c cs => simp

theorem pass_through_bare_value (pre post : List String) (v : String)
    (h : ∀ t ∈ pre, strncmp_eq t "-B" 2 = false) :
    pass_through (pre ++ ["-B", v] ++ post) = pass_through (pre ++ post) := by
  unfold pass_through
  rw [List.append_assoc, kept_from_append pre _ h, kept_from_append pre post h]
  congr 1

theorem pass_through_attached (pre post : List String) (s : String)
    (h : ∀ t ∈ pre, strncmp_eq t "-B" 2 = false) (hs : s ≠ "") :
    pass_through (pre ++ ["-B" ++ s] ++ post) = pass_through (pre ++ post) := by
  unfold pass_through
  rw [List.append_assoc, kept_from_append pre _ h, kept_from_append pre post h]
  congr 1
  exact kept_from_attached _ _ (attached_starts s) (attached_not_bare s hs)

theorem pass_through_bare_last (pre : List String)
    (h : ∀ t ∈ pre, strncmp_eq t "-B" 2 = false) :
    pass_through (pre ++ ["-B"]) = pass_through pre := by
  unfold pass_through
  rw [kept_from_append pre _ h]
  simp [kept_from_bare_last "-B" (by decide)]

theorem rewritten_args_congr (b : Build) (argv0 : String) (a1 a2 : List String)
    (env : Env) (dir : String) (h : pass_through a1 = pass_through a2) :
    rewritten_args b argv0 a1 env dir = rewritten_args b argv0 a2 env dir := by
  unfold rewritten_args rewritten_vector sanitizer_seen fortify_seen m32_seen
  rw [h]

theorem observed_congr (b : Build) (argv0 : String) (a1 a2 : List String)
    (env : Env) (dir : String) (quiet : Bool)
    (h1 : a1.length + 1 ≤ ARGC_MAX) (h2 : a2.length + 1 ≤ ARGC_MAX)
    (h : pass_through a1 = pass_through a2) :
    vector_of (run b argv0 a1 env dir quiet) = vector_of (run b argv0 a2 env dir quiet) ∧
      env_of (run b argv0 a1 env dir quiet) = env_of (run b argv0 a2 env dir quiet) := by
  have hs : sanitizer_seen a1 = sanitizer_seen a2 := by
    unfold sanitizer_seen
    rw [h]
  constructor
  · rw [run_vector b argv0 a1 env dir quiet h1, run_vector b argv0 a2 env dir quiet h2,
      rewritten_args_congr b argv0 a1 a2 env dir h]
  · rw [run_eq b argv0 a1 env dir quiet h1, run_eq b argv0 a2 env dir quiet h2,
      env_of_rewritten, env_of_rewritten, rewritten_args_congr b argv0 a1 a2 env dir h, hs]

/-- C14: after arguments of which none begins with `-B`, a bare `-B` is
dropped with the token that follows it, whatever that token is, an attached
`-B<dir>` is dropped alone, and a bare `-B` in last place is dropped alone:
output vector, failure and resulting environment are those of the argument
list without them. -/
theorem C14_search_path_value (b : Build) (argv0 : String) (pre post : List String)
    (v s : String) (env : Env) (dir : String) (quiet : Bool)
    (hpre : ∀ t ∈ pre, strncmp_eq t "-B" 2 = false) (hs : s ≠ "")
    (hn : (pre ++ post).length + 3 ≤ ARGC_MAX) :
    (vector_of (run b argv0 (pre ++ ["-B", v] ++ post) env dir quiet) =
          vector_of (run b argv0 (pre ++ post) env dir quiet) ∧
        env_of (run b argv0 (pre ++ ["-B", v] ++ post) env dir quiet) =
          env_of (run b argv0 (pre ++ post) env dir quiet)) ∧
      (vector_of (run b argv0 (pre ++ ["-B" ++ s] ++ post) env dir quiet) =
          vector_of (run b argv0 (pre ++ post) env dir quiet) ∧
        env_of (run b argv0 (pre ++ ["-B" ++ s] ++ post) env dir quiet) =
          env_of (run b argv0 (pre ++ post) env dir quiet)) ∧
      (vector_of (run b argv0 (pre ++ ["-B"]) env dir quiet) =
          vector_of (run b argv0 pre env dir quiet) ∧
        env_of (run b argv0 (pre ++ ["-B"]) env dir quiet) =
          env_of (run b argv0 pre env dir quiet)) := by
  simp only [List.length_append] at hn
  refine ⟨?_, ?_, ?_⟩
  · exact observed_congr b argv0 _ _ env dir quiet
      (by simp only [List.length_append, List.length_cons, List.length_nil]; omega)
      (by simp only [List.length_append]; omega)
      (pass_through_bare_value pre post v hpre)
  · exact observed_congr b argv0 _ _ env dir quiet
      (by simp only [List.length_append, List.length_cons, List.length_nil]; omega)
      (by simp only [List.length_append]; omega)
      (pass_through_attached pre post s hpre hs)
  · exact observed_congr b argv0 _ _ env dir quiet
      (by simp only [List.length_append, List.length_cons, List.length_nil]; omega)
      (by omega)
      (pass_through_bare_last pre hpre)

/-- Witness of C14: the value dropped is a sanitizer flag, the other side has
no such token, and the two runs agree all the same. -/
theorem C14_search_path_value_witness :
    (vector_of (run linux "afl-gcc" (["-c"] ++ ["-B", "-fsanitize=address"] ++ ["a.c"])
            [("AFL_USE_ASAN", "1")] "/usr/lib/afl" true) =
          vector_of (run linux "afl-gcc" (["-c"] ++ ["a.c"])
            [("AFL_USE_ASAN", "1")] "/usr/lib/afl" true) ∧
        env_of (run linux "afl-gcc" (["-c"] ++ ["-B", "-fsanitize=address"] ++ ["a.c"])
            [("AFL_USE_ASAN", "1")] "/usr/lib/afl" true) =
          env_of (run linux "afl-gcc" (["-c"] ++ ["a.c"])
            [("AFL_USE_ASAN", "1")] "/usr/lib/afl" true)) ∧
      (vector_of (run linux "afl-gcc" (["-c"] ++ ["-B" ++ "/x"] ++ ["a.c"])
            [("AFL_USE_ASAN", "1")] "/usr/lib/afl" true) =
          vector_of (run linux "afl-gcc" (["-c"] ++ ["a.c"])
            [("AFL_USE_ASAN", "1")] "/usr/lib/afl" true) ∧
        env_of (run linux "afl-gcc" (["-c"] ++ ["-B" ++ "/x"] ++ ["a.c"])
            [("AFL_USE_ASAN", "1")] "/usr/lib/afl" true) =
          env_of (run linux "afl-gcc" (["-c"] ++ ["a.c"])
            [("AFL_USE_ASAN", "1")] "/usr/lib/afl" true)) ∧
      (vector_of (run linux "afl-gcc" (["-c"] ++ ["-B"])
            [("AFL_USE_ASAN", "1")] "/usr/lib/afl" true) =
          vector_of (run linux "afl-gcc" ["-c"]
            [("AFL_USE_ASAN", "1")] "/usr/lib/afl" true) ∧
        env_of (run linux "afl-gcc" (["-c"] ++ ["-B"])
            [("AFL_USE_ASAN", "1")] "/usr/lib/afl" true) =
          env_of (run linux "afl-gcc" ["-c"]
            [("AFL_USE_ASAN", "1")] "/usr/lib/afl" true)) :=
  C14_search_path_value linux "afl-gcc" ["-c"] ["a.c"] "-fsanitize=address" "/x"
    [("AFL_USE_ASAN", "1")] "/usr/lib/afl" true (by decide) (by decide) (by decide)

/-! ### The compiler binary and the priority of the guards -/

theorem compiler_binary_table (b : Build) (ha : b.apple = false) (name : String)
    (env : Env) :
    compiler_binary b name env = some (
      if name = "afl-clang++" then (getenv env "AFL_CXX").getD "clang++"
      else if clang_family name then (getenv env "AFL_CC").getD "clang"
      else if name = "afl-g++" then (getenv env "AFL_CXX").getD "g++"
      else if name = "afl-gcj" then (getenv env "AFL_GCJ").getD "gcj"
      else (getenv env "AFL_CC").getD "gcc") := by
  unfold compiler_binary
  rw [ha]
  by_cases h1 : name = "afl-clang++"
  · have c1 : clang_family name = true := by
      rw [h1]
      decide
    rw [if_pos c1, if_pos h1, if_pos h1]
  · by_cases h2 : clang_family name = true
    · simp only [if_neg h1, if_pos h2]
    · by_cases h3 : name = "afl-g++"
      · simp only [if_neg h1, if_neg h2, if_pos h3, Bool.false_eq_true, if_false]
      · by_cases h4 : name = "afl-gcj"
        · simp only [if_neg h1, if_neg h2, if_neg h3, if_pos h4, Bool.false_eq_true,
            if_false]
        · simp only [if_neg h1, if_neg h2, if_neg h3, if_neg h4, Bool.false_eq_true,
            if_false]

theorem no_integrated_as_absent (b : Build) (env : Env) (f a m : Bool) :
    "-no-integrated-as" ∉ policy_flags b env false f a m := by
  intro ht
  simp only [policy_flags, clang_flags, harden_flags, sanitizer_flags, optimize_flags,
    no_builtin_flags, List.mem_append, Bool.false_eq_true, if_false, List.not_mem_nil,
    false_or] at ht
  rcases ht with h | h | h | h
  · split at h
    · split at h <;> (revert h; decide)
    · revert h; decide
  · split at h
    · revert h; decide
    · split at h
      · revert h; decide
      · split at h <;> (revert h; decide)
  · split at h
    · revert h; decide
    · rw [List.mem_append] at h
      rcases h with h | h
      · split at h <;> (revert h; decide)
      · revert h; decide
  · split at h <;> (revert h; decide)

theorem head_policy_flags (b : Build) (env : Env) (cl f a m : Bool) :
    (policy_flags b env cl f a m).head? = some "-no-integrated-as" ↔ cl = true := by
  cases cl
  · constructor
    · intro h
      exact absurd (List.mem_of_mem_head? h) (no_integrated_as_absent b env f a m)
    · intro h
      cases h
  · constructor
    · intro _
      rfl
    · intro _
      rfl

/-- C15: on a build that is not for Apple, slot 0 of the output is fixed by
the base name of `argv[0]` and by `AFL_CXX`, `AFL_CC` and `AFL_GCJ`, by the
table of the claim; `-no-integrated-as` stands right after the `-B` pair
exactly when the base name starts with `afl-clang`; so two invocations with
the same base name and the same three variables get the same binary. -/
theorem C15_binary_by_base_name (b : Build) (ha : b.apple = false)
    (hv : b.CLANG_ENV_VAR ∉ consumed_vars)
    (argv0 : String) (args : List String) (env : Env) (dir : String) (quiet : Bool)
    (hn : args.length + 1 ≤ ARGC_MAX)
    (hok : aborted (run b argv0 args env dir quiet) = false) :
    (vector_of (run b argv0 args env dir quiet)).map List.head? =
        .ok (some (
          if base_name argv0 = "afl-clang++" then (getenv env "AFL_CXX").getD "clang++"
          else if clang_family (base_name argv0) then (getenv env "AFL_CC").getD "clang"
          else if base_name argv0 = "afl-g++" then (getenv env "AFL_CXX").getD "g++"
          else if base_name argv0 = "afl-gcj" then (getenv env "AFL_GCJ").getD "gcj"
          else (getenv env "AFL_CC").getD "gcc")) ∧
      vector_of (run b argv0 args env dir quiet) =
        .ok ((compiler_binary b (base_name argv0) env).toList ++ pass_through args ++
          "-B" :: dir :: policy_flags b env (clang_family (base_name argv0))
            (fortify_seen args) (sanitizer_seen args)
            (b.freebsd_x86_64 && m32_seen args)) ∧
      ((policy_flags b env (clang_family (base_name argv0)) (fortify_seen args)
          (sanitizer_seen args) (b.freebsd_x86_64 && m32_seen args)).head? =
          some "-no-integrated-as" ↔ clang_family (base_name argv0) = true) ∧
      (∀ (argv1 : String) (args1 : List String) (env1 : Env) (dir1 : String)
          (quiet1 : Bool), args1.length + 1 ≤ ARGC_MAX →
        aborted (run b argv1 args1 env1 dir1 quiet1) = false →
        base_name argv1 = base_name argv0 →
        getenv env1 "AFL_CC" = getenv env "AFL_CC" →
        getenv env1 "AFL_CXX" = getenv env "AFL_CXX" →
        getenv env1 "AFL_GCJ" = getenv env "AFL_GCJ" →
        (vector_of (run b argv1 args1 env1 dir1 quiet1)).map List.head? =
          (vector_of (run b argv0 args env dir quiet)).map List.head?) := by
  obtain ⟨cc, hcc, _, hvec⟩ := run_not_aborted b ha hv argv0 args env dir quiet hn hok
  have htab := compiler_binary_table b ha (base_name argv0) env
  refine ⟨?_, ?_, head_policy_flags b env _ _ _ _, ?_⟩
  · rw [hvec]
    simp only [Except.map, head_rewritten_vector]
    rw [← hcc, htab]
  · rw [hvec, hcc]
    simp [rewritten_vector, appended, Option.toList]
  · intro argv1 args1 env1 dir1 quiet1 hn1 hok1 hb1 h1 h2 h3
    obtain ⟨cc1, hcc1, _, hvec1⟩ :=
      run_not_aborted b ha hv argv1 args1 env1 dir1 quiet1 hn1 hok1
    have e : compiler_binary b (base_name argv1) env1 =
        compiler_binary b (base_name argv0) env := by
      unfold compiler_binary
      rw [hb1, h1, h2, h3]
    rw [e, hcc] at hcc1
    rw [hvec, hvec1]
    simp only [Except.map, head_rewritten_vector]
    rw [Option.some.inj hcc1]

/-- Witness of C15: `afl-clang` under a directory named after another
alias. -/
theorem C15_binary_by_base_name_witness :
    (vector_of (run linux "/afl-g++/afl-clang" ["a.c"] [("AFL_CXX", "c++")]
        "/usr/lib/afl" true)).map List.head? = .ok (some "clang") :=
  (C15_binary_by_base_name linux rfl (by decide) "/afl-g++/afl-clang" ["a.c"]
    [("AFL_CXX", "c++")] "/usr/lib/afl" true (by decide) (by decide!)).1

/-- C16 as stated fails on an Apple build: `afl-gcc` without `AFL_CC` stops
at line 163 before any guard is reached, although a sanitizer flag was
recorded; and with `AFL_USE_ASAN` and `AFL_USE_MSAN` set the message is that of
line 163, not that of line 246. -/
theorem C16_counterexample :
    sanitizer_seen ["-fsanitize=address"] = true ∧
      returned (run { linux with apple := true } "afl-gcc" ["-fsanitize=address"] []
        "/usr/lib/afl" true) = false ∧
      run { linux with apple := true } "afl-gcc" ["-fsanitize=address"] []
          "/usr/lib/afl" true =
        .error (.fatal 163 "AFL_CC or AFL_CXX required on MacOS X") ∧
      sanitizer_seen ["a.c"] = false ∧
      is_set [("AFL_USE_MSAN", "1"), ("AFL_USE_ASAN", "1")] "AFL_USE_ASAN" = true ∧
      is_set [("AFL_USE_MSAN", "1"), ("AFL_USE_ASAN", "1")] "AFL_USE_MSAN" = true ∧
      run { linux with apple := true } "afl-gcc" ["a.c"]
          [("AFL_USE_MSAN", "1"), ("AFL_USE_ASAN", "1")] "/usr/lib/afl" true =
        .error (.fatal 163 "AFL_CC or AFL_CXX required on MacOS X") := by
  decide!

/-- C16, amended: on every build the choice of the compiler binary comes
before the guards. It never fails on a build that is not for Apple; where it
fails the run stops with the message of line 163; where it does not fail the
guards are tried in the order sanitizer flag recorded, address against memory,
hardening against sanitizer: with a sanitizer flag recorded the run returns;
without one, `AFL_USE_ASAN` with `AFL_USE_MSAN` gives the message of line 246,
else `AFL_USE_ASAN` with `AFL_HARDEN` that of line 249, else `AFL_USE_MSAN`
with `AFL_HARDEN` that of line 260. -/
theorem C16_guard_priority (b : Build) (hv : b.CLANG_ENV_VAR ∉ consumed_vars)
    (argv0 : String) (args : List String) (env : Env) (dir : String) (quiet : Bool)
    (hn : args.length + 1 ≤ ARGC_MAX) :
    (b.apple = false → compiler_binary b (base_name argv0) env ≠ none) ∧
      (compiler_binary b (base_name argv0) env = none →
        run b argv0 args env dir quiet =
          .error (.fatal 163 "AFL_CC or AFL_CXX required on MacOS X")) ∧
      (compiler_binary b (base_name argv0) env ≠ none →
        (sanitizer_seen args = true →
          returned (run b argv0 args env dir quiet) = true) ∧
        (sanitizer_seen args = false → is_set env "AFL_USE_ASAN" = true →
          is_set env "AFL_USE_MSAN" = true →
          run b argv0 args env dir quiet =
            .error (.fatal 246 "ASAN and MSAN are mutually exclusive")) ∧
        (sanitizer_seen args = false → is_set env "AFL_USE_ASAN" = true →
          is_set env "AFL_USE_MSAN" = false → is_set env "AFL_HARDEN" = true →
          run b argv0 args env dir quiet =
            .error (.fatal 249 "ASAN and AFL_HARDEN are mutually exclusive")) ∧
        (sanitizer_seen args = false → is_set env "AFL_USE_ASAN" = false →
          is_set env "AFL_USE_MSAN" = true → is_set env "AFL_HARDEN" = true →
          run b argv0 args env dir quiet =
            .error (.fatal 260 "MSAN and AFL_HARDEN are mutually exclusive"))) := by
  have hpc := policy_conflict_fresh b hv (base_name argv0) env (sanitizer_seen args)
  refine ⟨?_, ?_, ?_⟩
  · intro ha hc
    obtain ⟨cc, hcc⟩ := compiler_binary_isSome b ha (base_name argv0) env
    rw [hcc] at hc
    cases hc
  · intro hc
    rw [← compiler_binary_fresh b hv] at hc
    rw [run_eq b argv0 args env dir quiet hn]
    unfold rewritten
    rw [hc]
  · intro hc
    obtain ⟨cc, hcc⟩ := Option.ne_none_iff_exists'.mp hc
    have hcc1 := hcc
    rw [← compiler_binary_fresh b hv] at hcc1
    unfold is_set
    refine ⟨?_, ?_, ?_, ?_⟩
    · intro hs
      rw [returned_eq, run_vector b argv0 args env dir quiet hn,
        rewritten_args_fresh b hv, hcc, hs]
      rfl
    · intro hs hA hM
      rw [run_eq b argv0 args env dir quiet hn]
      unfold rewritten
      rw [hcc1, hpc, hs]
      simp [policy_conflict, hA, hM]
    · intro hs hA hM hH
      rw [run_eq b argv0 args env dir quiet hn]
      unfold rewritten
      rw [hcc1, hpc, hs]
      simp [policy_conflict, hA, hM, hH]
    · intro hs hA hM hH
      rw [run_eq b argv0 args env dir quiet hn]
      unfold rewritten
      rw [hcc1, hpc, hs]
      simp [policy_conflict, hA, hM, hH]

/-- Witness of C16, amended: an Apple build with its override, all three
toggles set; the first message wins. -/
theorem C16_guard_priority_witness :
    run { linux with apple := true } "afl-gcc" ["a.c"]
        [("AFL_HARDEN", "1"), ("AFL_USE_MSAN", "1"), ("AFL_USE_ASAN", "1"),
          ("AFL_CC", "gcc-12")]
        "/usr/lib/afl" true =
      .error (.fatal 246 "ASAN and MSAN are mutually exclusive") :=
  ((C16_guard_priority { linux with apple := true } (by decide) "afl-gcc" ["a.c"]
    [("AFL_HARDEN", "1"), ("AFL_USE_MSAN", "1"), ("AFL_USE_ASAN", "1"),
      ("AFL_CC", "gcc-12")]
    "/usr/lib/afl" true (by decide)).2.2 (by decide!)).2.1 (by decide) (by decide)
    (by decide)

/-! ### Bounds of the buffer and of the loop -/

theorem rewritten_error (b : Build) (argv0 : String) (args : List String) (env : Env)
    (dir : String) (quiet : Bool) (e : Failure)
    (h : rewritten b argv0 args env dir quiet = .error e) : ∃ l m, e = .fatal l m := by
  unfold rewritten at h
  cases hc : compiler_binary b (base_name argv0)
      (env_selected b (base_name argv0) env) with
  | none =>
    rw [hc] at h
    exact ⟨_, _, (Except.error.inj h).symm⟩
  | some cc =>
    rw [hc] at h
    cases hp : policy_conflict (env_selected b (base_name argv0) env)
        (sanitizer_seen args) with
    | some e2 =>
      rw [hp] at h
      obtain ⟨l, m, he⟩ := policy_conflict_fatal _ _ e2 hp
      exact ⟨l, m, by rw [← Except.error.inj h, he]⟩
    | none =>
      rw [hp] at h
      cases h

/-- C17: on every build, for every `argc >= 1`, no store of `edit_params`
falls outside the `argc + 128` slots of `cc_params`, and when it returns
`cc_par_cnt` is at most `argc + 17` and so below the number of slots. -/
theorem C17_buffer_bound (b : Build) (argv0 : String) (args : List String) (env : Env)
    (dir : String) (quiet : Bool) (hn : args.length + 1 ≤ ARGC_MAX) :
    run b argv0 args env dir quiet ≠ .error .fault ∧
      ∀ r, run b argv0 args env dir quiet = .ok r →
        r.cc_par_cnt ≤ (args.length + 1) + 17 ∧
        r.cc_params.length = (args.length + 1) + 128 ∧
        r.cc_par_cnt < r.cc_params.length := by
  rw [run_eq b argv0 args env dir quiet hn]
  constructor
  · intro h
    obtain ⟨l, m, he⟩ := rewritten_error b argv0 args env dir quiet _ h
    cases he
  · intro r hr
    obtain ⟨vec, h1, h2, h3⟩ := rewritten_ok b argv0 args env dir quiet r hr
    rw [h1, h2, buf_length vec _ (by omega)]
    omega

/-- Witness of C17: a run that returns four tokens in 130 slots. -/
theorem C17_buffer_bound_witness :
    4 ≤ (["a.c"].length + 1) + 17 ∧
      (buf ["gcc", "a.c", "-B", "/usr/lib/afl"] 130).length = (["a.c"].length + 1) + 128 ∧
      4 < (buf ["gcc", "a.c", "-B", "/usr/lib/afl"] 130).length :=
  (C17_buffer_bound linux "afl-gcc" ["a.c"] [("AFL_DONT_OPTIMIZE", "1")] "/usr/lib/afl"
    true (by decide)).2
    { as_path := some "/usr/lib/afl"
      cc_params := buf ["gcc", "a.c", "-B", "/usr/lib/afl"] 130
      cc_par_cnt := 4, be_quiet := true, clang_mode := false, fortify_set := false
      asan_set := false, m32_set := false, env := [("AFL_DONT_OPTIMIZE", "1")]
      warnings := [], argv_off := 1, visited := [1], counters := [2, 1] }
    (by decide!)

theorem countdown_bounds (n : Nat) : ∀ c ∈ countdown n, 1 ≤ c ∧ c ≤ n + 1 := by
  induction n with
  | zero =>
    intro c hc
    simp [countdown] at hc
    omega
  | succ n ih =>
    intro c hc
    simp only [countdown, List.mem_cons] at hc
    cases hc with
    | inl h => omega
    | inr h =>
      have := ih c h
      omega

theorem u32_dec_pos (c : Nat) (h1 : 1 ≤ c) (h2 : c < U32_MOD) : u32_dec c + 1 = c := by
  unfold u32_dec U32_MOD at *
  omega

/-- C18: for every `argc >= 1` equal to the length of `argv`, from the state
in which `edit_params` enters the loop `while (--argc)`, the loop returns: the
counter is decremented from `argc`, `argc - 1`, down to `1`, each time from a
positive value, so it never wraps; the pointer visits the indices `1` to
`argc - 1` once each, in increasing order, and none at `argc` or beyond. -/
theorem C18_scan_terminates (b : Build) (argv0 : String) (args : List String) (env : Env)
    (dir : String) (quiet : Bool) (hn : args.length + 1 ≤ ARGC_MAX) :
    (∀ s0, choose_compiler b (base_name argv0)
          (edit_params_entry (args.length + 1) (State.ready env dir quiet)) = .ok s0 →
        (scan b args (args.length + 1) s0).map
            (fun t => (t.argv_off, t.visited, t.counters)) =
          .ok (args.length, List.range' 1 args.length, countdown args.length)) ∧
      (∀ c ∈ countdown args.length, 1 ≤ c ∧ c ≤ args.length + 1 ∧ u32_dec c + 1 = c) ∧
      (∀ i ∈ List.range' 1 args.length, 1 ≤ i ∧ i < args.length + 1) ∧
      (List.range' 1 args.length).Pairwise (fun i j => i < j) := by
  have hU : args.length + 129 < U32_MOD := by
    unfold ARGC_MAX at hn
    unfold U32_MOD
    omega
  have hm : (args.length + 1 + 128) % U32_MOD = args.length + 129 :=
    Nat.mod_eq_of_lt (by omega)
  refine ⟨?_, ?_, ?_, List.pairwise_lt_range' 1 args.length⟩
  · intro s0 h0
    unfold edit_params_entry State.ready State.init at h0
    simp only [hm] at h0
    rw [choose_compiler_buf b (base_name argv0) _ _ _ _ _ _ _ _ _ _ _ (by omega)] at h0
    cases hc : compiler_binary b (base_name argv0)
        (env_selected b (base_name argv0) env) with
    | none =>
      rw [hc] at h0
      cases h0
    | some cc =>
      rw [hc] at h0
      rw [← Except.ok.inj h0,
        scan_buf b args.length args (Nat.le_refl _) _ _ _ _ _ _ _ _ _ _ _ _ _
          (by simp only [List.length_cons, List.length_nil]; omega) (by omega)]
      simp [Except.map]
  · intro c hc
    have h := countdown_bounds args.length c hc
    exact ⟨h.1, h.2, u32_dec_pos c h.1 (by omega)⟩
  · intro i hi
    rw [List.mem_range'_1] at hi
    omega

/-- Witness of C18: a bare `-B` with its value, then a bare `-B` in last
place, which takes nothing with it. -/
theorem C18_scan_terminates_witness :
    (scan linux ["-B", "x", "-B"] 4
          { as_path := some "/usr/lib/afl", cc_params := buf ["gcc"] 132
            cc_par_cnt := 1, be_quiet := true, clang_mode := false, fortify_set := false
            asan_set := false, m32_set := false, env := [], warnings := []
            argv_off := 0, visited := [], counters := [] }).map
        (fun t => (t.argv_off, t.visited, t.counters)) =
      .ok (3, [1, 2, 3], [4, 3, 2, 1]) :=
  (C18_scan_terminates linux "afl-gcc" ["-B", "x", "-B"] [] "/usr/lib/afl" true
    (by decide)).1 _ (by decide!)

/-! ### The unreachable check and the presence of toggles -/

theorem push_error (s : State) (x : Option String) (e : Failure)
    (h : s.push x = .error e) : e = .fault := by
  unfold State.push State.store at h
  by_cases hc : s.cc_par_cnt < s.cc_params.length
  · simp [hc] at h
  · simp [hc] at h
    exact h.symm

theorem push_push_error (s : State) (x y : Option String) (e : Failure)
    (h : (s.push x >>= fun t => t.push y) = .error e) : e = .fault := by
  cases hp : s.push x with
  | error e2 =>
    rw [hp] at h
    have := push_error _ _ _ hp
    rw [this] at h
    exact (Except.error.inj h).symm
  | ok t =>
    rw [hp] at h
    exact push_error _ _ _ h

/-- C19: the check `ASAN and MSAN are mutually exclusive` on line 257, under
`else if (getenv("AFL_USE_MSAN"))`, is never reached: from no state does the
sanitizer step fail there, no run of `edit_params` fails there, a run that
fails with that message fails on line 246, and where `AFL_USE_ASAN` is unset
the only fatal error of the step is the one of line 260. -/
theorem C19_unreachable_check :
    (∀ (s : State) (m : String), add_sanitizer s ≠ .error (.fatal 257 m)) ∧
      (∀ (b : Build) (argv0 : String) (args : List String) (env : Env) (dir : String)
          (quiet : Bool) (l : Nat) (m : String), args.length + 1 ≤ ARGC_MAX →
        run b argv0 args env dir quiet = .error (.fatal l m) →
        l ≠ 257 ∧ (m = "ASAN and MSAN are mutually exclusive" → l = 246)) ∧
      (∀ (s : State) (e : Failure), s.asan_set = false →
        (getenv s.env "AFL_USE_ASAN").isSome = false →
        add_sanitizer s = .error e →
        e = .fault ∨ e = .fatal 260 "MSAN and AFL_HARDEN are mutually exclusive") := by
  refine ⟨?_, ?_, ?_⟩
  · intro s m h
    unfold add_sanitizer at h
    by_cases h0 : s.asan_set = true
    · simp [h0, pure_ok] at h
    · by_cases hA : (getenv s.env "AFL_USE_ASAN").isSome = true <;>
      by_cases hM : (getenv s.env "AFL_USE_MSAN").isSome = true <;>
      by_cases hH : (getenv s.env "AFL_HARDEN").isSome = true <;>
      simp only [h0, hA, hM, hH, if_true, if_false, pure_ok] at h <;>
      first
        | (have hf := push_push_error _ _ _ _ h; cases hf)
        | (simp at h)
  · intro b argv0 args env dir quiet l m hn h
    rw [run_eq b argv0 args env dir quiet hn] at h
    unfold rewritten at h
    cases hc : compiler_binary b (base_name argv0)
        (env_selected b (base_name argv0) env) with
    | none =>
      rw [hc] at h
      cases h
      exact ⟨by decide, fun c => absurd c (by decide)⟩
    | some cc =>
      rw [hc] at h
      cases hp : policy_conflict (env_selected b (base_name argv0) env)
          (sanitizer_seen args) with
      | none =>
        rw [hp] at h
        cases h
      | some e =>
        rw [hp] at h
        have he := Except.error.inj h
        rw [he] at hp
        unfold policy_conflict at hp
        split at hp
        · cases hp
        · split at hp
          · split at hp
            · cases hp
              exact ⟨by decide, fun _ => rfl⟩
            · split at hp
              · cases hp
                exact ⟨by decide, fun c => absurd c (by decide)⟩
              · cases hp
          · split at hp
            · split at hp
              · cases hp
                exact ⟨by decide, fun c => absurd c (by decide)⟩
              · cases hp
            · cases hp
  · intro s e hs hA h
    unfold add_sanitizer at h
    rw [hs, hA] at h
    by_cases hM : (getenv s.env "AFL_USE_MSAN").isSome = true <;>
    by_cases hH : (getenv s.env "AFL_HARDEN").isSome = true <;>
    simp only [hM, hH, if_true, if_false, pure_ok, Bool.false_eq_true] at h <;>
    first
      | exact Or.inl (push_push_error _ _ _ _ h)
      | exact Or.inr (Except.error.inj h).symm
      | cases h

/-- Witness of C19: a run with both sanitizer toggles fails on line 246. -/
theorem C19_unreachable_check_witness :
    (246 : Nat) ≠ 257 ∧
      ("ASAN and MSAN are mutually exclusive" = "ASAN and MSAN are mutually exclusive" →
        (246 : Nat) = 246) :=
  C19_unreachable_check.2.1 linux "afl-gcc" ["a.c"]
    [("AFL_USE_MSAN", "1"), ("AFL_USE_ASAN", "1")] "/usr/lib/afl" true 246
    "ASAN and MSAN are mutually exclusive" (by decide) (by decide!)

theorem env_selected_isSome_congr (b : Build) (name : String) (e1 e2 : Env) (k : String)
    (h : is_set e1 k = is_set e2 k) :
    (getenv (env_selected b name e1) k).isSome =
      (getenv (env_selected b name e2) k).isSome := by
  unfold is_set at h
  unfold env_selected
  split
  · rw [getenv_setenv, getenv_setenv]
    split
    · rfl
    · exact h
  · exact h

theorem env_selected_congr (b : Build) (name : String) (e1 e2 : Env) (k : String)
    (h : getenv e1 k = getenv e2 k) :
    getenv (env_selected b name e1) k = getenv (env_selected b name e2) k := by
  unfold env_selected
  split
  · rw [getenv_setenv, getenv_setenv]
    split
    · rfl
    · exact h
  · exact h

/-- C20: on every build, two environments that agree on which of
`AFL_HARDEN`, `AFL_USE_ASAN`, `AFL_USE_MSAN`, `AFL_DONT_OPTIMIZE` and
`AFL_NO_BUILTIN` are set, and on the values of `AFL_CC`, `AFL_CXX` and
`AFL_GCJ`, give `edit_params` the same outcome: the same failure or the same
output vector. -/
theorem C20_presence_only (b : Build) (argv0 : String) (args : List String)
    (env1 env2 : Env) (dir : String) (quiet : Bool) (hn : args.length + 1 ≤ ARGC_MAX)
    (htog : ∀ k ∈ ["AFL_HARDEN", "AFL_USE_ASAN", "AFL_USE_MSAN", "AFL_DONT_OPTIMIZE",
      "AFL_NO_BUILTIN"], is_set env1 k = is_set env2 k)
    (hval : ∀ k ∈ ["AFL_CC", "AFL_CXX", "AFL_GCJ"], getenv env1 k = getenv env2 k) :
    vector_of (run b argv0 args env1 dir quiet) =
      vector_of (run b argv0 args env2 dir quiet) := by
  have t1 := env_selected_isSome_congr b (base_name argv0) env1 env2 _
    (htog "AFL_HARDEN" (by decide))
  have t2 := env_selected_isSome_congr b (base_name argv0) env1 env2 _
    (htog "AFL_USE_ASAN" (by decide))
  have t3 := env_selected_isSome_congr b (base_name argv0) env1 env2 _
    (htog "AFL_USE_MSAN" (by decide))
  have t4 := env_selected_isSome_congr b (base_name argv0) env1 env2 _
    (htog "AFL_DONT_OPTIMIZE" (by decide))
  have t5 := env_selected_isSome_congr b (base_name argv0) env1 env2 _
    (htog "AFL_NO_BUILTIN" (by decide))
  have v1 := env_selected_congr b (base_name argv0) env1 env2 _ (hval "AFL_CC" (by decide))
  have v2 := env_selected_congr b (base_name argv0) env1 env2 _ (hval "AFL_CXX" (by decide))
  have v3 := env_selected_congr b (base_name argv0) env1 env2 _ (hval "AFL_GCJ" (by decide))
  rw [run_vector b argv0 args env1 dir quiet hn, run_vector b argv0 args env2 dir quiet hn]
  unfold rewritten_args rewritten_vector appended policy_flags compiler_binary
    policy_conflict harden_flags sanitizer_flags optimize_flags no_builtin_flags
  rw [t1, t2, t3, t4, t5, v1, v2, v3]

/-- Witness of C20: toggles set to `0` and to the empty string count as
set. -/
theorem C20_presence_only_witness :
    vector_of (run linux "afl-gcc" ["a.c"]
        [("AFL_HARDEN", "0"), ("AFL_NO_BUILTIN", "")] "/usr/lib/afl" true) =
      vector_of (run linux "afl-gcc" ["a.c"]
        [("AFL_NO_BUILTIN", "1"), ("AFL_HARDEN", "1")] "/usr/lib/afl" true) :=
  C20_presence_only linux "afl-gcc" ["a.c"]
    [("AFL_HARDEN", "0"), ("AFL_NO_BUILTIN", "")]
    [("AFL_NO_BUILTIN", "1"), ("AFL_HARDEN", "1")] "/usr/lib/afl" true (by decide)
    (by decide) (by decide)

end AflGcc
